import Mathlib

/-!
# Fragment swap client (`static/js/input.js`)

A shallow embedding of the site script: the cookie reader, the request
builder, the HTML-fragment swap and the three event handlers with their
global listeners.

Conventions of the embedding.

* JavaScript strings are `String`s; the string algorithms (`split`,
  `startsWith`) work on their character lists.
* The live document and every parsed document are `Node` trees (the document
  element and what is below it).  An element of a document is named by its
  position, the list of child indices leading to it from the root.
* The HTML parser behind `DOMParser.parseFromString(·, 'text/html')` and the
  selector engine behind `querySelector` and `closest` are browser built-ins;
  the handlers take them as a parameter `br : Browser`.
* The script changes the page through `replaceWith` only, which puts one node
  in the place of one node.  An element therefore keeps its position until it,
  or an element it is in, is replaced, and is out of the live document from
  then on.  A reference to an element that a callback keeps across a request
  is an `ElementRef`: the position of the element and the number of
  replacements made when the reference was taken.
* A promise that has settled is a `Settled` value; the `fetch` promise chain
  of a handler is run on the outcome of the network call.
-/

set_option autoImplicit false

namespace CabrelBlog

/-! ## Strings -/

/-- Scanning loop of `String.prototype.split(sep)` for a non-empty separator:
`skip` counts the characters of a separator match still to be passed over,
`cur` is the current piece, reversed. -/
def splitGo (sep : List Char) : Nat → List Char → List Char → List (List Char)
  | _, cur, [] => [cur.reverse]
  | skip + 1, cur, _ :: s => splitGo sep skip cur s
  | 0, cur, c :: s =>
    if sep.isPrefixOf (c :: s) then cur.reverse :: splitGo sep (sep.length - 1) [] s
    else splitGo sep 0 (c :: cur) s

/-- The pieces of `s.split(sep)`: the text between successive non-overlapping
occurrences of `sep`, found left to right. -/
def split (s sep : List Char) : List (List Char) :=
  splitGo sep 0 [] s

/-- Number of positions of `s` at which `sep` occurs. -/
def occurrences (sep : List Char) : List Char → Nat
  | [] => if sep.isPrefixOf [] then 1 else 0
  | c :: s => (if sep.isPrefixOf (c :: s) then 1 else 0) + occurrences sep s

/-- Upper-casing of one character as far as `String.prototype.toUpperCase`
can produce ASCII letters from it: the ASCII letters, the long s (U+017F, upper
case `S`) and the two st ligatures (U+FB05 and U+FB06, upper case `ST`). -/
def upperChar (c : Char) : List Char :=
  if c = Char.ofNat 0x17F then ['S']
  else if c = Char.ofNat 0xFB05 ∨ c = Char.ofNat 0xFB06 then ['S', 'T']
  else [c.toUpper]

/-- The call `method.toUpperCase()`.  Characters outside ASCII other than the
three of `upperChar` are left as they are: their upper case holds a character
outside ASCII, or (for the sharp s, the dotless i and the f ligatures) `SS`,
`I` or `F`, which none of the method names of `fetchOptions` contains, so the
comparison with those names is not affected. -/
def toUpperCase (s : String) : String :=
  ⟨s.data.flatMap upperChar⟩

/-! ## Documents -/

/-- A DOM node: a text node or an element with its tag name (lower case, as the
HTML parser leaves it), its attributes and its children. -/
inductive Node where
  | text (data : String)
  | element (tag : String) (attrs : List (String × String)) (children : List Node)
deriving Repr

/-- Position of a node in a document: the child indices from the root down. -/
abbrev Path := List Nat

/-- The node at a position, if there is one. -/
def getAt : Node → Path → Option Node
  | n, [] => some n
  | .text _, _ :: _ => none
  | .element _ _ cs, i :: p =>
    match cs[i]? with
    | some c => getAt c p
    | none => none

/-- The call `target.replaceWith(replacement)` for the node at position `target`:
the node is replaced in its parent's child list.  A position that names no node
of the document (a detached target) leaves the document as it is. -/
def replaceWith : Node → Path → Node → Node
  | _, [], r => r
  | .text d, _ :: _, _ => .text d
  | .element t a cs, i :: p, r =>
    match cs[i]? with
    | some c => .element t a (cs.set i (replaceWith c p r))
    | none => .element t a cs

mutual
/-- The elements of a tree in document order (preorder), with their positions
relative to the root of the tree. -/
def elements : Node → List (Path × Node)
  | .text _ => []
  | .element t a cs => ([], .element t a cs) :: childElements cs 0
/-- The elements below the children `cs`, the first of which has index `i`. -/
def childElements : List Node → Nat → List (Path × Node)
  | [], _ => []
  | c :: cs, i => (elements c).map (fun e => (i :: e.1, e.2)) ++ childElements cs (i + 1)
end

/-- Whether a position names an element of the document. -/
def isElementAt (root : Node) (p : Path) : Bool :=
  match getAt root p with
  | some (.element _ _ _) => true
  | _ => false

/-- A (valid) CSS selector, by what it denotes: whether the element at a
position of a document matches. -/
abbrev Selector := Node → Path → Bool

/-- The call `document.querySelector(selector)`: the first element in document order
that matches, with its position. -/
def querySelector (root : Node) (selector : Selector) : Option (Path × Node) :=
  (elements root).find? (fun e => selector root e.1)

/-- The call `element.closest(selector)` for the element at position `p`: the nearest of
the element itself and its ancestors that matches. -/
def closest (root : Node) (selector : Selector) (p : Path) : Option Path :=
  if isElementAt root p then
    p.inits.reverse.find? (fun q => isElementAt root q && selector root q)
  else none

/-- The call `element.getAttribute(name)` on an attribute list. -/
def getAttribute (attrs : List (String × String)) (name : String) : Option String :=
  attrs.lookup name

/-- The value of `getAttribute(name)` for the element at a position of the document. -/
def attributeAt (root : Node) (p : Path) (name : String) : Option String :=
  match getAt root p with
  | some (.element _ a _) => getAttribute a name
  | _ => none

/-- ASCII whitespace, which separates the tokens of a `class` attribute. -/
def isAsciiWhitespace (c : Char) : Bool :=
  c.toNat = 32 || c.toNat = 9 || c.toNat = 10 || c.toNat = 12 || c.toNat = 13

/-- Tokens of a whitespace-separated attribute value; `cur` is the current
token, reversed. -/
def tokensGo : List Char → List Char → List (List Char)
  | cur, [] => if cur.isEmpty then [] else [cur.reverse]
  | cur, c :: s =>
    if isAsciiWhitespace c then
      if cur.isEmpty then tokensGo [] s else cur.reverse :: tokensGo [] s
    else tokensGo (c :: cur) s

/-- The test `element.classList.contains(cls)` on an attribute list. -/
def classListContains (attrs : List (String × String)) (cls : String) : Bool :=
  match getAttribute attrs "class" with
  | some v => (tokensGo [] v.data).contains cls.data
  | none => false

/-! ## Selectors of the script in a no-quirks document -/

/-- A selector that looks at the tag and attributes of the element only. -/
def elementSelector (f : String → List (String × String) → Bool) : Selector :=
  fun root p =>
    match getAt root p with
    | some (.element t a _) => f t a
    | _ => false

/-- The selector `[id^="like-button-"]`. -/
def likeButtonSelector : Selector :=
  elementSelector fun _ a =>
    match getAttribute a "id" with
    | some v => "like-button-".data.isPrefixOf v.data
    | none => false

/-- The selector `#post-detail-body`. -/
def postDetailBodySelector : Selector :=
  elementSelector fun _ a => getAttribute a "id" = some "post-detail-body"

/-- The selector `main, body`. -/
def mainOrBodySelector : Selector :=
  elementSelector fun t _ => t = "main" || t = "body"

/-- The selector `form.js-like-form`. -/
def likeFormSelector : Selector :=
  elementSelector fun t a => t = "form" && classListContains a "js-like-form"

/-- The selector `form.js-inline-edit-form`. -/
def inlineEditFormSelector : Selector :=
  elementSelector fun t a => t = "form" && classListContains a "js-inline-edit-form"

/-- The selector `.js-inline-edit-trigger`. -/
def inlineEditTriggerSelector : Selector :=
  elementSelector fun _ a => classListContains a "js-inline-edit-trigger"

/-- What the selector texts of the script denote in a no-quirks document; any
other text matches nothing here. -/
def standardSelector (text : String) : Selector :=
  if text = "[id^=\"like-button-\"]" then likeButtonSelector
  else if text = "#post-detail-body" then postDetailBodySelector
  else if text = "main, body" then mainOrBodySelector
  else if text = "form.js-like-form" then likeFormSelector
  else if text = "form.js-inline-edit-form" then inlineEditFormSelector
  else if text = ".js-inline-edit-trigger" then inlineEditTriggerSelector
  else fun _ _ => false

/-- The browser built-ins the script calls: the HTML parser, which gives the
document parsed from a text, and the selector engine, which gives what a
selector text denotes. -/
structure Browser where
  parse : String → Node
  selector : String → Selector

/-- A browser with the selectors of a no-quirks document whose parser builds
the document `response` from the text it is given. -/
def Browser.answering (response : Node) : Browser :=
  { parse := fun _ => response, selector := standardSelector }

/-- The getter `doc.body`: the first child of the `html` element that is a `body` or a
`frameset` element. -/
def body (doc : Node) : Option Node :=
  match doc with
  | .element "html" _ cs =>
    cs.find? fun c =>
      match c with
      | .element t _ _ => t = "body" || t = "frameset"
      | .text _ => false
  | _ => none

/-- The getter `node.firstElementChild`. -/
def firstElementChild : Node → Option Node
  | .element _ _ cs =>
    cs.find? fun c =>
      match c with
      | .element _ _ _ => true
      | .text _ => false
  | .text _ => none

/-! ## CSRF helpers -/

/-- The separator `; ${name}=` that `getCookie` splits on. -/
def cookieSeparator (name : String) : List Char :=
  "; ".data ++ name.data ++ "=".data

/-- The text that `getCookie` splits: `; ${document.cookie}`. -/
def cookieValue (cookie : String) : List Char :=
  "; ".data ++ cookie.data

/-- The function `getCookie(name)` on a given value of `document.cookie`; `none` is
`undefined`. -/
def getCookie (cookie name : String) : Option String :=
  let value := cookieValue cookie
  let parts := split value (cookieSeparator name)
  if parts.length = 2 then
    match parts.getLast? with
    | some last => (split last ";".data).head?.map String.mk
    | none => none
  else none

/-- Whether `document.cookie` holds a cookie of the given name: the cookie
string is `n1=v1; n2=v2; ...`, so once it is prefixed with `; ` every cookie
named `name` shows as `; name=`. -/
def holdsCookie (cookie name : String) : Prop :=
  0 < occurrences (cookieSeparator name) (cookieValue cookie)

instance (cookie name : String) : Decidable (holdsCookie cookie name) := by
  unfold holdsCookie; infer_instance

/-- A request body as the script passes it to `fetch`: nothing, a string, or
the `FormData` object built from the form element at a position of the live
document. -/
inductive Body where
  | undefined
  | text (s : String)
  | formData (form : List Nat)
deriving DecidableEq, Repr

/-- JavaScript truthiness of a body: `undefined` and the empty string are
falsy, an object is truthy. -/
def Body.truthy : Body → Bool
  | .undefined => false
  | .text s => s ≠ ""
  | .formData _ => true

/-- The options object returned by `fetchOptions`. -/
structure RequestOptions where
  method : String
  headers : List (String × String)
  credentials : String
  body : Body
deriving DecidableEq, Repr

/-- Assignment `headers[key] = value` on a headers object. -/
def setHeader (headers : List (String × String)) (key value : String) :
    List (String × String) :=
  if headers.any (fun kv => kv.1 = key) then
    headers.map (fun kv => if kv.1 = key then (key, value) else kv)
  else headers ++ [(key, value)]

/-- Reading `headers[key]`. -/
def header (headers : List (String × String)) (key : String) : Option String :=
  headers.lookup key

/-- The test `['POST', 'PUT', 'PATCH', 'DELETE'].includes(method.toUpperCase())`. -/
def isMutating (method : String) : Bool :=
  ["POST", "PUT", "PATCH", "DELETE"].contains (toUpperCase method)

/-- Truthiness of the module constant `csrftoken`. -/
def tokenTruthy : Option String → Bool
  | some t => t ≠ ""
  | none => false

/-- The function `fetchOptions(method, body, isFormData)`.  `csrftoken` is the module
constant computed once when the script loads; an omitted `isFormData` is
`none`. -/
def fetchOptions (csrftoken : Option String) (method : String) (body : Body)
    (isFormData : Option Bool) : RequestOptions :=
  let headers := [("X-Requested-With", "XMLHttpRequest")]
  let headers :=
    if isFormData ≠ some true ∧ body.truthy = true then
      setHeader headers "Content-Type" "application/json"
    else headers
  let headers :=
    if isMutating method = true ∧ tokenTruthy csrftoken = true then
      setHeader headers "X-CSRFToken" (csrftoken.getD "")
    else headers
  { method := method, headers := headers, credentials := "same-origin", body := body }

/-- The module constant `csrftoken = getCookie('csrftoken')`, from the value of
`document.cookie` when the script loads. -/
def loadCsrfToken (cookie : String) : Option String :=
  getCookie cookie "csrftoken"

/-! ## Promises and the page -/

/-- A settled promise: fulfilled with a value, or rejected with a reason. -/
inductive Settled (α : Type) where
  | fulfilled (value : α)
  | rejected (reason : String)
deriving Repr

/-- What the `fetch` promise of a handler settles to: a rejection, or a
response whose `text()` promise is itself rejected or fulfilled with the
response text. -/
abbrev NetworkOutcome := Settled (Settled String)

/-- The page as the handlers see it: the live document, the lines written with
`console.error`, and the positions of the live document at which `replaceWith`
has been called so far, oldest first. -/
structure World where
  document : Node
  console : List String
  replaced : List Path

/-- The number of `replaceWith` calls made on the live document so far. -/
def World.replacements (w : World) : Nat :=
  w.replaced.length

/-- The call `target.replaceWith(replacement)` for the node at a position of the
live document. -/
def World.replace (w : World) (target : Path) (replacement : Node) : World :=
  { w with document := replaceWith w.document target replacement,
           replaced := w.replaced ++ [target] }

/-- A reference to an element as a script variable holds it: the position the
element had in the live document when the reference was taken, and the number
of replacements the page had seen by then. -/
structure ElementRef where
  path : Path
  taken : Nat
deriving DecidableEq, Repr

/-- Where the referenced element is in the live document now: at its position,
unless a replacement made since the reference was taken was at that position or
at one above it, in which case the element is no longer in the live
document. -/
def World.locate (w : World) (r : ElementRef) : Option Path :=
  if (w.replaced.drop r.taken).any (fun p => p.isPrefixOf r.path) then none
  else some r.path

/-- The call `element.replaceWith(replacement)` on an element held by reference.
On an element that is no longer in the live document the call changes the
detached tree the element is in, or nothing when the element has no parent: the
page stays as it is. -/
def World.replaceRef (w : World) (r : ElementRef) (replacement : Node) : World :=
  match w.locate r with
  | some p => w.replace p replacement
  | none => w

/-- The call `console.error(msg, err)`. -/
def World.error (w : World) (msg err : String) : World :=
  { w with console := w.console ++ [msg ++ " " ++ err] }

/-! ## Swap utility -/

/-- The function `swapFromHTML(responseHTML, selector, targetElement)`: the returned flag and
the page afterwards.  `targetElement` is `none` for `null`. -/
def swapFromHTML (br : Browser) (responseHTML : String) (selector : String)
    (targetElement : Option Path) (w : World) : Bool × World :=
  let doc := br.parse responseHTML
  let replacement := querySelector doc (br.selector selector)
  match replacement, targetElement with
  | some r, some t => (true, w.replace t r.2)
  | _, _ => (false, w)

/-! ## Handlers -/

/-- A DOM event: the position of its target element in the live document when
the event is dispatched, and the number of replacements the page has seen by
then. -/
structure Event where
  target : Path
  dispatched : Nat
deriving DecidableEq, Repr

/-- A call `fetch(url, options)`. -/
structure Request where
  url : String
  options : RequestOptions
deriving DecidableEq, Repr

/-- The continuation a handler attaches to its `fetch` promise.  The like
handler keeps a reference to the wrapper it found when the event was
handled. -/
inductive Pending where
  | like (wrapper : Option ElementRef)
  | inlineEditSubmit
  | inlineEditTrigger
deriving DecidableEq, Repr

/-- The synchronous part of a handler call: whether `e.preventDefault()` was
called, and the request issued with its continuation, if any. -/
structure Handled where
  defaultPrevented : Bool
  issued : Option (Request × Pending)
deriving DecidableEq, Repr

/-- A handler call that returns at once. -/
def Handled.nothing : Handled :=
  { defaultPrevented := false, issued := none }

/-- The URL `fetch` is given for an attribute value: `null` is turned into the
string `null`. -/
def fetchUrl : Option String → String
  | some u => u
  | none => "null"

/-- Synchronous part of `onLikeSubmit(e)`. -/
def onLikeSubmit (br : Browser) (csrftoken : Option String) (document : Node)
    (e : Event) : Handled :=
  match closest document (br.selector "form.js-like-form") e.target with
  | none => Handled.nothing
  | some form =>
    let action := attributeAt document form "action"
    let formData := Body.formData form
    let wrapper : Option ElementRef :=
      (closest document (br.selector "[id^=\"like-button-\"]") form).map
        fun p => { path := p, taken := e.dispatched }
    { defaultPrevented := true,
      issued := some ({ url := fetchUrl action,
                        options := fetchOptions csrftoken "POST" formData (some true) },
                      Pending.like wrapper) }

/-- The callback `html => { ... }` of `onLikeSubmit`.  `wrapper` is the
reference to the wrapper found at submission.  A `null` `doc.body` makes
`doc.body.firstElementChild` throw. -/
def likeCallback (br : Browser) (wrapper : Option ElementRef) (html : String)
    (w : World) : World × Settled Unit :=
  match wrapper with
  | none => (w, .fulfilled ())
  | some ref =>
    let doc := br.parse html
    match body doc with
    | none => (w, .rejected "TypeError: doc.body is null")
    | some b =>
      let updated :=
        match firstElementChild b with
        | some c => some c
        | none => (querySelector doc (br.selector "[id^=\"like-button-\"]")).map (·.2)
      match updated with
      | some u => (w.replaceRef ref u, .fulfilled ())
      | none => (w, .fulfilled ())

/-- Synchronous part of `onInlineEditSubmit(e)`. -/
def onInlineEditSubmit (br : Browser) (csrftoken : Option String) (document : Node)
    (e : Event) : Handled :=
  match closest document (br.selector "form.js-inline-edit-form") e.target with
  | none => Handled.nothing
  | some form =>
    let action := attributeAt document form "action"
    let formData := Body.formData form
    { defaultPrevented := true,
      issued := some ({ url := fetchUrl action,
                        options := fetchOptions csrftoken "POST" formData (some true) },
                      Pending.inlineEditSubmit) }

/-- The callback `html => { ... }` of `onInlineEditSubmit`. -/
def inlineEditSubmitCallback (br : Browser) (html : String) (w : World) :
    World × Settled Unit :=
  match querySelector w.document (br.selector "#post-detail-body") with
  | none => (w, .fulfilled ())
  | some current =>
    let (swapped, w1) := swapFromHTML br html "#post-detail-body" (some current.1) w
    if swapped then (w1, .fulfilled ())
    else
      let doc := br.parse html
      let fallback :=
        match querySelector doc (br.selector "#post-detail-body") with
        | some f => some f
        | none => querySelector doc (br.selector "main, body")
      match fallback with
      | some f => (w1.replace current.1 f.2, .fulfilled ())
      | none => (w1, .fulfilled ())

/-- Synchronous part of `onInlineEditTrigger(e)`. -/
def onInlineEditTrigger (br : Browser) (csrftoken : Option String) (document : Node)
    (e : Event) : Handled :=
  match closest document (br.selector ".js-inline-edit-trigger") e.target with
  | none => Handled.nothing
  | some btn =>
    match attributeAt document btn "data-edit-url" with
    | none => { defaultPrevented := true, issued := none }
    | some url =>
      if url = "" then { defaultPrevented := true, issued := none }
      else
        { defaultPrevented := true,
          issued := some ({ url := url, options := fetchOptions csrftoken "GET" .undefined none },
                          Pending.inlineEditTrigger) }

/-- The callback `html => { ... }` of `onInlineEditTrigger`. -/
def inlineEditTriggerCallback (br : Browser) (html : String) (w : World) :
    World × Settled Unit :=
  match querySelector w.document (br.selector "#post-detail-body") with
  | none => (w, .fulfilled ())
  | some current =>
    let (swapped, w1) := swapFromHTML br html "#post-detail-body" (some current.1) w
    if swapped then (w1, .fulfilled ())
    else
      let doc := br.parse html
      let fallback := querySelector doc (br.selector "#post-detail-body")
      match fallback with
      | some f => (w1.replace current.1 f.2, .fulfilled ())
      | none => (w1, .fulfilled ())

/-- The chain `fetch(...).then(res => res.text()).then(callback).catch(err =>
console.error(msg, err))` run on the outcome of the network call: the page
afterwards and the promise the chain ends in. -/
def runChain (msg : String) (callback : String → World → World × Settled Unit)
    (net : NetworkOutcome) (w : World) : World × Settled Unit :=
  let text : Settled String :=
    match net with
    | .fulfilled res => res
    | .rejected err => .rejected err
  let (w1, done) :=
    match text with
    | .fulfilled html => callback html w
    | .rejected err => (w, .rejected err)
  match done with
  | .fulfilled _ => (w1, .fulfilled ())
  | .rejected err => (w1.error msg err, .fulfilled ())

/-- The promise chain of a pending request, run when the network call
settles. -/
def Pending.resume (br : Browser) (k : Pending) (net : NetworkOutcome)
    (w : World) : World × Settled Unit :=
  match k with
  | .like wrapper => runChain "Like toggle failed:" (likeCallback br wrapper) net w
  | .inlineEditSubmit =>
    runChain "Inline edit submit failed:" (inlineEditSubmitCallback br) net w
  | .inlineEditTrigger =>
    runChain "Load inline edit form failed:" (inlineEditTriggerCallback br) net w

/-- One handled event from start to end: `w` is the page at the time the
request the handler issued (if any) settles as `net`, a later state of the page
the event was dispatched on; the result is the page once the chain has run and
the promise the chain ended in.  A handler that issued no request leaves the
page as it is. -/
def Handled.settle (br : Browser) (h : Handled) (net : NetworkOutcome)
    (w : World) : World × Settled Unit :=
  match h.issued with
  | some (_, k) => k.resume br net w
  | none => (w, .fulfilled ())

/-! ## Global listeners -/

/-- The three handlers. -/
inductive HandlerName where
  | onLikeSubmit
  | onInlineEditSubmit
  | onInlineEditTrigger
deriving DecidableEq, Repr

/-- What a listener did with an event: the handler it called, if any, and the
synchronous part of that call. -/
structure Dispatched where
  handler : Option HandlerName
  handled : Handled
deriving DecidableEq, Repr

/-- The test `e.target.classList.contains(cls)`. -/
def targetHasClass (document : Node) (e : Event) (cls : String) : Bool :=
  match getAt document e.target with
  | some (.element _ a _) => classListContains a cls
  | _ => false

/-- The `submit` listener registered on `document`. -/
def submitListener (br : Browser) (csrftoken : Option String) (document : Node)
    (e : Event) : Dispatched :=
  if targetHasClass document e "js-like-form" then
    { handler := some .onLikeSubmit, handled := onLikeSubmit br csrftoken document e }
  else if targetHasClass document e "js-inline-edit-form" then
    { handler := some .onInlineEditSubmit, handled := onInlineEditSubmit br csrftoken document e }
  else { handler := none, handled := Handled.nothing }

/-- The `click` listener registered on `document`. -/
def clickListener (br : Browser) (csrftoken : Option String) (document : Node)
    (e : Event) : Dispatched :=
  if targetHasClass document e "js-inline-edit-trigger" then
    { handler := some .onInlineEditTrigger, handled := onInlineEditTrigger br csrftoken document e }
  else { handler := none, handled := Handled.nothing }

/-- The page after a handled event whose request was answered with the text
`html`. -/
def Handled.afterResponse (br : Browser) (h : Handled) (html : String)
    (w : World) : World :=
  (h.settle br (.fulfilled (.fulfilled html)) w).1

/-! ## Example pages and responses -/

/-- A post page: the like-button wrapper `#like-button-42` at position `[1, 0]`
with its form at `[1, 0, 0]`, and the container `#post-detail-body` at
`[1, 1]` with the edit trigger at `[1, 1, 1]` and its msg at
`[1, 1, 1, 0]`. -/
def postPage : Node :=
  .element "html" [] [
    .element "head" [] [],
    .element "body" [] [
      .element "div" [("id", "like-button-42")] [
        .element "form" [("class", "js-like-form"), ("action", "/posts/42/like/")] [
          .element "button" [("type", "submit")] [.text "♥ 4"]]],
      .element "div" [("id", "post-detail-body")] [
        .element "p" [] [.text "Hello"],
        .element "button"
          [("class", "btn js-inline-edit-trigger"), ("data-edit-url", "/posts/42/edit/form/")] [
          .element "span" [] [.text "Edit"]]]]]

/-- The post page with the edit form loaded in the container: the form is at
position `[1, 1, 0]`. -/
def editPage : Node :=
  .element "html" [] [
    .element "head" [] [],
    .element "body" [] [
      .element "div" [("id", "like-button-42")] [],
      .element "div" [("id", "post-detail-body")] [
        .element "form" [("class", "js-inline-edit-form"), ("action", "/posts/42/edit/")] [
          .element "textarea" [("name", "content")] [.text "Hello"]]]]]

/-- The element `<div id="like-button-42" data-liked="true">` with the given
children. -/
def likedButton (children : List Node) : Node :=
  .element "div" [("id", "like-button-42"), ("data-liked", "true")] children

/-- The document an HTML parser builds from
`<div id="like-button-42" data-liked="true">...</div>`. -/
def likeResponse (children : List Node) : Node :=
  .element "html" [] [.element "head" [] [], .element "body" [] [likedButton children]]

/-- The document an HTML parser builds from `<main><p>Edit form</p></main>`: no
element `#post-detail-body`, one `main` element. -/
def mainResponse : Node :=
  .element "html" [] [
    .element "head" [] [],
    .element "body" [] [.element "main" [] [.element "p" [] [.text "Edit form"]]]]

/-- The document an HTML parser builds from
`<main id="post-detail-body"><p>Edited</p></main>`. -/
def editedResponse : Node :=
  .element "html" [] [
    .element "head" [] [],
    .element "body" [] [
      .element "main" [("id", "post-detail-body")] [.element "p" [] [.text "Edited"]]]]

/-- The document an HTML parser builds from `<frameset></frameset>`: the `html`
element holds `head` and `frameset`, and there is no `body` element. -/
def framesetResponse : Node :=
  .element "html" [] [.element "head" [] [], .element "frameset" [] []]

/-- The document an HTML parser builds from
`<div id="like-button-42" data-liked="true">♥ 5</div>`. -/
def likedResponse : Node :=
  likeResponse [.text "♥ 5"]

/-- The document an HTML parser builds from
`<div id="like-button-42" data-liked="true">♥ 6</div>`. -/
def likedAgainResponse : Node :=
  likeResponse [.text "♥ 6"]

/-- A browser with the selectors of a no-quirks document whose parser knows the
two like responses: the text with `♥ 6` and, for any other text, the one with
`♥ 5`. -/
def Browser.liking : Browser :=
  { parse := fun text =>
      if text = "<div id=\"like-button-42\" data-liked=\"true\">♥ 6</div>" then
        likedAgainResponse
      else likedResponse,
    selector := standardSelector }

/-- Submission of the like form of the post page. -/
def likeSubmission : Event := { target := [1, 0, 0], dispatched := 0 }

/-- Submission of the edit form of the edit page. -/
def editSubmission : Event := { target := [1, 1, 0], dispatched := 0 }

/-- A click on the edit trigger of the post page. -/
def triggerClick : Event := { target := [1, 1, 1], dispatched := 0 }

/-- A click on the label inside the edit trigger of the post page. -/
def labelClick : Event := { target := [1, 1, 1, 0], dispatched := 0 }

/-- A page with the given document, an empty console and no replacement made
yet. -/
def World.initial (document : Node) : World :=
  { document := document, console := [], replaced := [] }

/-! ## Lemmas on `split` -/

theorem occurrences_cons (sep : List Char) (x : Char) (s : List Char) :
    occurrences sep (x :: s)
      = (if sep.isPrefixOf (x :: s) then 1 else 0) + occurrences sep s := rfl

theorem splitGo_cons_matching (sep : List Char) (x : Char) (s cur : List Char)
    (h : sep.isPrefixOf (x :: s) = true) :
    splitGo sep 0 cur (x :: s) = cur.reverse :: splitGo sep (sep.length - 1) [] s := by
  simp [splitGo, h]

theorem splitGo_cons_not_matching (sep : List Char) (x : Char) (s cur : List Char)
    (h : sep.isPrefixOf (x :: s) = false) :
    splitGo sep 0 cur (x :: s) = splitGo sep 0 (x :: cur) s := by
  simp [splitGo, h]

theorem isPrefixOf_self_append (sep rest : List Char) :
    sep.isPrefixOf (sep ++ rest) = true := by
  rw [List.isPrefixOf_iff_prefix]; exact List.prefix_append sep rest

theorem splitGo_skip (sep a rest cur : List Char) :
    splitGo sep a.length cur (a ++ rest) = splitGo sep 0 cur rest := by
  induction a with
  | nil => cases rest <;> simp [splitGo]
  | cons x a ih => simpa [splitGo] using ih

theorem splitGo_match (c : Char) (t rest cur : List Char) :
    splitGo (c :: t) 0 cur (c :: (t ++ rest))
      = cur.reverse :: splitGo (c :: t) 0 [] rest := by
  have h : (c :: t).isPrefixOf (c :: (t ++ rest)) = true :=
    isPrefixOf_self_append (c :: t) rest
  rw [splitGo_cons_matching _ _ _ _ h]
  have : (c :: t).length - 1 = t.length := by simp
  rw [this, splitGo_skip]

theorem occurrences_append_ge (sep a b : List Char) :
    occurrences sep b ≤ occurrences sep (a ++ b) := by
  induction a with
  | nil => simp
  | cons x a ih => rw [List.cons_append, occurrences_cons]; omega

theorem occurrences_self_append (c : Char) (t post : List Char) :
    occurrences (c :: t) (c :: (t ++ post)) = 1 + occurrences (c :: t) (t ++ post) := by
  have h : (c :: t).isPrefixOf (c :: (t ++ post)) = true :=
    isPrefixOf_self_append (c :: t) post
  rw [occurrences_cons, h]; simp

theorem occurrences_infix_pos (c : Char) (t pre post : List Char) :
    0 < occurrences (c :: t) (pre ++ c :: (t ++ post)) := by
  have h1 := occurrences_self_append c t post
  have h2 := occurrences_append_ge (c :: t) pre (c :: (t ++ post))
  omega

theorem splitGo_of_no_occurrence (c : Char) (t : List Char) :
    ∀ (s cur : List Char), occurrences (c :: t) s = 0 →
      splitGo (c :: t) 0 cur s = [cur.reverse ++ s] := by
  intro s
  induction s with
  | nil => intro cur _; simp [splitGo]
  | cons x s ih =>
    intro cur h
    rw [occurrences_cons] at h
    have hp : (c :: t).isPrefixOf (x :: s) = false := by
      cases hb : (c :: t).isPrefixOf (x :: s) with
      | false => rfl
      | true => rw [hb] at h; simp at h
    have hs : occurrences (c :: t) s = 0 := by omega
    rw [splitGo_cons_not_matching _ _ _ _ hp, ih _ hs]; simp

theorem splitGo_of_unique (c : Char) (t post : List Char) :
    ∀ (pre cur : List Char), occurrences (c :: t) (pre ++ c :: (t ++ post)) = 1 →
      splitGo (c :: t) 0 cur (pre ++ c :: (t ++ post)) = [cur.reverse ++ pre, post] := by
  intro pre
  induction pre with
  | nil =>
    intro cur h
    have h0 : occurrences (c :: t) post = 0 := by
      rw [List.nil_append, occurrences_self_append] at h
      have := occurrences_append_ge (c :: t) t post
      omega
    rw [List.nil_append, splitGo_match, splitGo_of_no_occurrence c t post [] h0]
    simp
  | cons x pre ih =>
    intro cur h
    have hpos := occurrences_infix_pos c t pre post
    rw [List.cons_append, occurrences_cons] at h
    have hp : (c :: t).isPrefixOf (x :: (pre ++ c :: (t ++ post))) = false := by
      cases hb : (c :: t).isPrefixOf (x :: (pre ++ c :: (t ++ post))) with
      | false => rfl
      | true => rw [hb] at h; simp at h; omega
    rw [hp] at h
    have h1 : occurrences (c :: t) (pre ++ c :: (t ++ post)) = 1 := by simpa using h
    rw [List.cons_append, splitGo_cons_not_matching _ _ _ _ hp, ih (x :: cur) h1]
    simp

theorem exists_infix_of_occurrences_pos (c : Char) (t : List Char) :
    ∀ s : List Char, 0 < occurrences (c :: t) s →
      ∃ pre post, s = pre ++ c :: (t ++ post) := by
  intro s
  induction s with
  | nil => intro h; simp [occurrences] at h
  | cons x s ih =>
    intro h
    rw [occurrences_cons] at h
    cases hb : (c :: t).isPrefixOf (x :: s) with
    | true =>
      rw [List.isPrefixOf_iff_prefix] at hb
      obtain ⟨post, hpost⟩ := hb
      exact ⟨[], post, by simpa using hpost.symm⟩
    | false =>
      rw [hb] at h
      obtain ⟨pre, post, hs⟩ := ih (by simpa using h)
      exact ⟨x :: pre, post, by simp [hs]⟩

theorem occurrences_skip (c : Char) (t0 rest : List Char) :
    ∀ t : List Char, c ∉ t →
      occurrences (c :: t0) (t ++ rest) = occurrences (c :: t0) rest := by
  intro t
  induction t with
  | nil => intro _; rfl
  | cons x t ih =>
    intro h
    have hx : x ≠ c := fun e => h (by simp [e])
    have ht : c ∉ t := fun e => h (by simp [e])
    have hp : (c :: t0).isPrefixOf (x :: (t ++ rest)) = false := by
      simp [List.isPrefixOf, Ne.symm hx]
    rw [List.cons_append, occurrences_cons, hp, ih ht]; simp

theorem splitGo_length (c : Char) (t : List Char) (hc : c ∉ t) :
    ∀ (n : Nat) (s cur : List Char), s.length ≤ n →
      (splitGo (c :: t) 0 cur s).length = 1 + occurrences (c :: t) s := by
  intro n
  induction n with
  | zero =>
    intro s cur h
    have : s = [] := List.length_eq_zero.mp (by omega)
    subst this; simp [splitGo, occurrences]
  | succ n ih =>
    intro s cur h
    cases s with
    | nil => simp [splitGo, occurrences]
    | cons x s =>
      cases hb : (c :: t).isPrefixOf (x :: s) with
      | true =>
        have hb2 := hb
        rw [List.isPrefixOf_iff_prefix] at hb2
        obtain ⟨rest, hrest⟩ := hb2
        have hx : x = c := by simp at hrest; exact hrest.1.symm
        have hs : s = t ++ rest := by simp at hrest; exact hrest.2.symm
        subst hx; subst hs
        have hl : rest.length ≤ n := by simp at h; omega
        rw [splitGo_match, occurrences_self_append, occurrences_skip x t rest t hc,
          List.length_cons, ih rest [] hl]
        omega
      | false =>
        rw [splitGo_cons_not_matching _ _ _ _ hb, occurrences_cons, hb]
        simp only [Bool.false_eq_true, if_false, Nat.zero_add]
        exact ih s (x :: cur) (by simp at h; omega)

theorem split_semicolon_head (s : List Char) :
    ∀ cur : List Char, (splitGo [';'] 0 cur s).head?
      = some (cur.reverse ++ s.takeWhile (fun c => c != ';')) := by
  induction s with
  | nil => intro cur; simp [splitGo]
  | cons x s ih =>
    intro cur
    by_cases hx : x = ';'
    · subst hx; simp [splitGo, List.isPrefixOf]
    · have hp : [';'].isPrefixOf (x :: s) = false := by
        simp [List.isPrefixOf, Ne.symm hx]
      have hn : (x != ';') = true := by simpa using hx
      rw [splitGo_cons_not_matching _ _ _ _ hp, ih, List.takeWhile_cons, hn]; simp

/-! ## Lemmas on `getCookie` -/

theorem cookieSeparator_eq (name : String) :
    cookieSeparator name = ';' :: (' ' :: (name.data ++ ['='])) := rfl

theorem cookieSeparator_no_overlap (name : String) (hn : ';' ∉ name.data) :
    ';' ∉ ' ' :: (name.data ++ ['=']) := by
  simp only [List.mem_cons, List.mem_append, List.mem_singleton, not_or, List.not_mem_nil,
    or_false]
  exact ⟨by decide, hn, by decide⟩

theorem split_length (name : String) (hn : ';' ∉ name.data) (s : List Char) :
    (split s (cookieSeparator name)).length = 1 + occurrences (cookieSeparator name) s := by
  rw [cookieSeparator_eq]
  exact splitGo_length ';' _ (cookieSeparator_no_overlap name hn) s.length s [] (Nat.le_refl _)

theorem getCookie_of_length_ne (cookie name : String)
    (h : (split (cookieValue cookie) (cookieSeparator name)).length ≠ 2) :
    getCookie cookie name = none := by
  simp [getCookie, h]

theorem getCookie_of_parts (cookie name : String) (a b : List Char)
    (h : split (cookieValue cookie) (cookieSeparator name) = [a, b]) :
    getCookie cookie name = some ⟨b.takeWhile (fun c => c != ';')⟩ := by
  have hh := split_semicolon_head b []
  have hh2 : (split b ";".data).head? = some (b.takeWhile (fun c => c != ';')) := by
    simpa [split] using hh
  simp [getCookie, h, hh2]

theorem getCookie_of_unique (cookie name : String) (pre post : List Char)
    (hd : cookieValue cookie = pre ++ cookieSeparator name ++ post)
    (h1 : occurrences (cookieSeparator name) (cookieValue cookie) = 1) :
    getCookie cookie name = some ⟨post.takeWhile (fun c => c != ';')⟩ := by
  apply getCookie_of_parts cookie name pre post
  rw [hd, cookieSeparator_eq] at h1
  rw [split, hd, cookieSeparator_eq]
  simp only [List.append_assoc, List.cons_append] at h1 ⊢
  have := splitGo_of_unique ';' (' ' :: (name.data ++ ['='])) post pre [] (by simpa using h1)
  simpa using this

theorem getCookie_isSome_iff (cookie name : String) (hn : ';' ∉ name.data) :
    (getCookie cookie name).isSome = true
      ↔ occurrences (cookieSeparator name) (cookieValue cookie) = 1 := by
  constructor
  · intro h
    by_contra hne
    have hl : (split (cookieValue cookie) (cookieSeparator name)).length ≠ 2 := by
      rw [split_length name hn]; omega
    rw [getCookie_of_length_ne cookie name hl] at h
    simp at h
  · intro h1
    have hpos : 0 < occurrences (cookieSeparator name) (cookieValue cookie) := by omega
    rw [cookieSeparator_eq] at hpos
    obtain ⟨pre, post, hd⟩ := exists_infix_of_occurrences_pos _ _ _ hpos
    have hd2 : cookieValue cookie = pre ++ cookieSeparator name ++ post := by
      rw [hd, cookieSeparator_eq]; simp
    rw [getCookie_of_unique cookie name pre post hd2 h1]; rfl

theorem getCookie_eq_none_of_occurrences (cookie name : String) (hn : ';' ∉ name.data)
    (h : occurrences (cookieSeparator name) (cookieValue cookie) ≠ 1) :
    getCookie cookie name = none := by
  have := (getCookie_isSome_iff cookie name hn).not.mpr h
  simpa using this

theorem occurrences_of_not_mem (c : Char) (t : List Char) :
    ∀ s : List Char, c ∉ s → occurrences (c :: t) s = 0 := by
  intro s
  induction s with
  | nil => intro _; simp [occurrences]
  | cons x s ih =>
    intro h
    have hx : x ≠ c := fun e => h (by simp [e])
    have hs : c ∉ s := fun e => h (by simp [e])
    have hp : (c :: t).isPrefixOf (x :: s) = false := by
      simp [List.isPrefixOf, Ne.symm hx]
    rw [occurrences_cons, hp, ih hs]; simp

theorem occurrences_longer_name (x n v : List Char) (hx : x ≠ [])
    (hsx : ';' ∉ x) (hex : '=' ∉ x) (hsn : ';' ∉ n) (hen : '=' ∉ n) (hsv : ';' ∉ v) :
    occurrences (';' :: ' ' :: (n ++ ['='])) (';' :: ' ' :: (x ++ n ++ '=' :: v)) = 0 := by
  have hno : ';' ∉ ' ' :: (x ++ n ++ '=' :: v) := by
    simp only [List.mem_cons, List.mem_append, not_or]
    exact ⟨by decide, ⟨hsx, hsn⟩, by decide, hsv⟩
  have hp : (';' :: ' ' :: (n ++ ['='])).isPrefixOf (';' :: ' ' :: (x ++ n ++ '=' :: v))
      = false := by
    cases hb : (';' :: ' ' :: (n ++ ['='])).isPrefixOf (';' :: ' ' :: (x ++ n ++ '=' :: v)) with
    | false => rfl
    | true =>
      exfalso
      rw [List.isPrefixOf_iff_prefix] at hb
      have h1 : (n ++ ['=']) <+: (x ++ n) ++ '=' :: v := by
        simpa [List.cons_prefix_cons] using hb
      have hlen : (n ++ ['=']).length ≤ (x ++ n).length := by
        have : 0 < x.length := List.length_pos.mpr hx
        simp; omega
      have h2 : (n ++ ['=']) <+: x ++ n :=
        List.prefix_of_prefix_length_le h1 (List.prefix_append _ _) hlen
      have h3 : '=' ∈ x ++ n := h2.subset (by simp)
      rcases List.mem_append.mp h3 with h | h
      · exact hex h
      · exact hen h
  rw [occurrences_cons, hp, occurrences_of_not_mem _ _ _ hno]; simp

theorem getCookie_longer_name (x n v : String) (hx : x ≠ "")
    (hsx : ';' ∉ x.data) (hex : '=' ∉ x.data) (hsn : ';' ∉ n.data) (hen : '=' ∉ n.data)
    (hsv : ';' ∉ v.data) :
    getCookie (x ++ n ++ "=" ++ v) n = none := by
  apply getCookie_eq_none_of_occurrences _ _ hsn
  have hx2 : x.data ≠ [] := by
    intro h; apply hx; cases x; simp_all
  have := occurrences_longer_name x.data n.data v.data hx2 hsx hex hsn hen hsv
  have hv : cookieValue (x ++ n ++ "=" ++ v)
      = ';' :: ' ' :: (x.data ++ n.data ++ '=' :: v.data) := by
    simp [cookieValue, String.data_append]
  rw [hv, cookieSeparator_eq, this]; decide

/-- A string that is not a cookie name, `=; `, makes the separator `; =; =`
overlap itself: in `; =; =; =` it occurs at two positions, `split` sees one of
them, and `getCookie` returns the empty string. -/
theorem getCookie_overlapping_separator :
    occurrences (cookieSeparator "=; ") (cookieValue "=; =; =") = 2
    ∧ getCookie "=; =; =" "=; " = some "" := by
  decide

/-! ## Lemmas on `fetchOptions` -/

theorem header_csrf (csrftoken : Option String) (method : String) (body : Body)
    (isFormData : Option Bool) :
    header (fetchOptions csrftoken method body isFormData).headers "X-CSRFToken"
      = if isMutating method = true ∧ tokenTruthy csrftoken = true then csrftoken else none := by
  by_cases h1 : isFormData ≠ some true ∧ body.truthy = true <;>
  by_cases h2 : isMutating method = true ∧ tokenTruthy csrftoken = true
  all_goals
    cases csrftoken <;>
      simp [fetchOptions, h1, h2, header, setHeader, List.lookup] <;>
      simp [tokenTruthy] at h2

theorem header_content_type (csrftoken : Option String) (method : String) (body : Body)
    (isFormData : Option Bool) :
    header (fetchOptions csrftoken method body isFormData).headers "Content-Type"
      = if isFormData ≠ some true ∧ body.truthy = true then some "application/json"
        else none := by
  by_cases h1 : isFormData ≠ some true ∧ body.truthy = true <;>
  by_cases h2 : isMutating method = true ∧ tokenTruthy csrftoken = true <;>
  simp [fetchOptions, h1, h2, header, setHeader, List.lookup]

theorem header_requested_with (csrftoken : Option String) (method : String) (body : Body)
    (isFormData : Option Bool) :
    header (fetchOptions csrftoken method body isFormData).headers "X-Requested-With"
      = some "XMLHttpRequest" := by
  by_cases h1 : isFormData ≠ some true ∧ body.truthy = true <;>
  by_cases h2 : isMutating method = true ∧ tokenTruthy csrftoken = true <;>
  simp [fetchOptions, h1, h2, header, setHeader, List.lookup]

/-! ## Lemmas on documents and on the handlers -/

theorem getAt_replaceWith (r : Node) :
    ∀ (p : Path) (doc old : Node), getAt doc p = some old →
      getAt (replaceWith doc p r) p = some r := by
  intro p
  induction p with
  | nil => intro doc old _; simp [replaceWith, getAt]
  | cons i p ih =>
    intro doc old h
    cases doc with
    | text d => simp [getAt] at h
    | element t a cs =>
      simp only [getAt] at h
      cases hc : cs[i]? with
      | none => simp [hc] at h
      | some c =>
        simp only [hc] at h
        have hi : i < cs.length := (List.getElem?_eq_some_iff.mp hc).1
        simp only [replaceWith, hc, getAt, List.getElem?_set_self hi]
        exact ih c old h

theorem swapFromHTML_some (br : Browser) (html : String) (selector : String)
    (t : Path) (r : Path × Node) (w : World)
    (hr : querySelector (br.parse html) (br.selector selector) = some r) :
    swapFromHTML br html selector (some t) w = (true, w.replace t r.2) := by
  simp [swapFromHTML, hr]

theorem swapFromHTML_none (br : Browser) (html : String) (selector : String)
    (target : Option Path) (w : World)
    (hr : querySelector (br.parse html) (br.selector selector) = none) :
    swapFromHTML br html selector target w = (false, w) := by
  simp [swapFromHTML, hr]

theorem swapFromHTML_null (br : Browser) (html : String) (selector : String)
    (w : World) :
    swapFromHTML br html selector none w = (false, w) := by
  cases h : querySelector (br.parse html) (br.selector selector) <;> simp [swapFromHTML, h]

theorem inlineEditTriggerCallback_swap (br : Browser) (html : String) (w : World)
    (cur r : Path × Node)
    (hc : querySelector w.document (br.selector "#post-detail-body") = some cur)
    (hr : querySelector (br.parse html) (br.selector "#post-detail-body") = some r) :
    inlineEditTriggerCallback br html w = (w.replace cur.1 r.2, Settled.fulfilled ()) := by
  simp [inlineEditTriggerCallback, hc, swapFromHTML_some br html _ cur.1 r w hr]

theorem inlineEditTriggerCallback_no_container (br : Browser) (html : String)
    (w : World) (hc : querySelector w.document (br.selector "#post-detail-body") = none) :
    inlineEditTriggerCallback br html w = (w, Settled.fulfilled ()) := by
  simp [inlineEditTriggerCallback, hc]

theorem inlineEditTriggerCallback_no_match (br : Browser) (html : String)
    (w : World) (hr : querySelector (br.parse html) (br.selector "#post-detail-body") = none) :
    inlineEditTriggerCallback br html w = (w, Settled.fulfilled ()) := by
  unfold inlineEditTriggerCallback
  cases hc : querySelector w.document (br.selector "#post-detail-body") with
  | none => rfl
  | some cur => simp [swapFromHTML_none br html _ (some cur.1) w hr, hr]

theorem inlineEditSubmitCallback_swap (br : Browser) (html : String) (w : World)
    (cur r : Path × Node)
    (hc : querySelector w.document (br.selector "#post-detail-body") = some cur)
    (hr : querySelector (br.parse html) (br.selector "#post-detail-body") = some r) :
    inlineEditSubmitCallback br html w = (w.replace cur.1 r.2, Settled.fulfilled ()) := by
  simp [inlineEditSubmitCallback, hc, swapFromHTML_some br html _ cur.1 r w hr]

theorem inlineEditSubmitCallback_no_container (br : Browser) (html : String)
    (w : World) (hc : querySelector w.document (br.selector "#post-detail-body") = none) :
    inlineEditSubmitCallback br html w = (w, Settled.fulfilled ()) := by
  simp [inlineEditSubmitCallback, hc]

theorem inlineEditSubmitCallback_fallback (br : Browser) (html : String) (w : World)
    (cur m : Path × Node)
    (hc : querySelector w.document (br.selector "#post-detail-body") = some cur)
    (hr : querySelector (br.parse html) (br.selector "#post-detail-body") = none)
    (hm : querySelector (br.parse html) (br.selector "main, body") = some m) :
    inlineEditSubmitCallback br html w = (w.replace cur.1 m.2, Settled.fulfilled ()) := by
  simp [inlineEditSubmitCallback, hc, swapFromHTML_none br html _ (some cur.1) w hr, hr, hm]

theorem inlineEditSubmitCallback_nothing (br : Browser) (html : String) (w : World)
    (hr : querySelector (br.parse html) (br.selector "#post-detail-body") = none)
    (hm : querySelector (br.parse html) (br.selector "main, body") = none) :
    inlineEditSubmitCallback br html w = (w, Settled.fulfilled ()) := by
  unfold inlineEditSubmitCallback
  cases hc : querySelector w.document (br.selector "#post-detail-body") with
  | none => rfl
  | some cur => simp [swapFromHTML_none br html _ (some cur.1) w hr, hr, hm]

theorem runChain_settles (msg : String) (callback : String → World → World × Settled Unit)
    (net : NetworkOutcome) (w : World) :
    (runChain msg callback net w).2 = Settled.fulfilled () := by
  simp only [runChain]
  split <;> rfl

theorem onInlineEditTrigger_issued (br : Browser) (csrftoken : Option String) (document : Node)
    (e : Event)
    (btn : Path) (url : String)
    (hb : closest document (br.selector ".js-inline-edit-trigger") e.target = some btn)
    (hu : attributeAt document btn "data-edit-url" = some url) (hne : url ≠ "") :
    onInlineEditTrigger br csrftoken document e =
      { defaultPrevented := true,
        issued := some ({ url := url, options := fetchOptions csrftoken "GET" Body.undefined none },
                        Pending.inlineEditTrigger) } := by
  simp [onInlineEditTrigger, hb, hu, hne]

theorem onInlineEditTrigger_no_url (br : Browser) (csrftoken : Option String) (document : Node)
    (e : Event)
    (btn : Path)
    (hb : closest document (br.selector ".js-inline-edit-trigger") e.target = some btn)
    (hu : attributeAt document btn "data-edit-url" = none
        ∨ attributeAt document btn "data-edit-url" = some "") :
    onInlineEditTrigger br csrftoken document e = { defaultPrevented := true, issued := none } := by
  rcases hu with hu | hu <;> simp [onInlineEditTrigger, hb, hu]

theorem locate_of_no_replacement (w : World) (r : ElementRef)
    (h : w.replacements ≤ r.taken) : w.locate r = some r.path := by
  have hd : w.replaced.drop r.taken = [] := List.drop_eq_nil_of_le h
  simp [World.locate, hd]

theorem replaceRef_of_located (w : World) (r : ElementRef) (p : Path) (u : Node)
    (h : w.locate r = some p) : w.replaceRef r u = w.replace p u := by
  simp [World.replaceRef, h]

theorem replaceRef_of_detached (w : World) (r : ElementRef) (u : Node)
    (h : w.locate r = none) : w.replaceRef r u = w := by
  simp [World.replaceRef, h]

theorem likeCallback_first_child (br : Browser) (ref : ElementRef) (html : String)
    (w : World) (b c : Node) (hb : body (br.parse html) = some b)
    (hc : firstElementChild b = some c) :
    likeCallback br (some ref) html w = (w.replaceRef ref c, Settled.fulfilled ()) := by
  simp [likeCallback, hb, hc]

theorem likeCallback_selector (br : Browser) (ref : ElementRef) (html : String)
    (w : World) (b : Node) (r : Path × Node) (hb : body (br.parse html) = some b)
    (hc : firstElementChild b = none)
    (hr : querySelector (br.parse html) (br.selector "[id^=\"like-button-\"]") = some r) :
    likeCallback br (some ref) html w = (w.replaceRef ref r.2, Settled.fulfilled ()) := by
  simp [likeCallback, hb, hc, hr]

theorem likeCallback_nothing (br : Browser) (ref : ElementRef) (html : String)
    (w : World) (b : Node) (hb : body (br.parse html) = some b)
    (hc : firstElementChild b = none)
    (hr : querySelector (br.parse html) (br.selector "[id^=\"like-button-\"]") = none) :
    likeCallback br (some ref) html w = (w, Settled.fulfilled ()) := by
  simp [likeCallback, hb, hc, hr]

theorem likeCallback_no_wrapper (br : Browser) (html : String) (w : World) :
    likeCallback br none html w = (w, Settled.fulfilled ()) := rfl

theorem likeCallback_detached (br : Browser) (ref : ElementRef) (html : String)
    (w : World) (h : w.locate ref = none) :
    (likeCallback br (some ref) html w).1 = w := by
  cases hb : body (br.parse html) with
  | none => simp [likeCallback, hb]
  | some b =>
    cases hc : firstElementChild b with
    | some c => simp [likeCallback, hb, hc, replaceRef_of_detached w ref _ h]
    | none =>
      cases hr : querySelector (br.parse html) (br.selector "[id^=\"like-button-\"]") with
      | some r => simp [likeCallback, hb, hc, hr, replaceRef_of_detached w ref _ h]
      | none => simp [likeCallback, hb, hc, hr]

theorem runChain_document (msg : String) (callback : String → World → World × Settled Unit)
    (html : String) (w : World) (h : (callback html w).1 = w) :
    (runChain msg callback (Settled.fulfilled (Settled.fulfilled html)) w).1.document
        = w.document
    ∧ (runChain msg callback (Settled.fulfilled (Settled.fulfilled html)) w).1.replaced
        = w.replaced := by
  simp only [runChain]
  rcases hcb : callback html w with ⟨w1, done⟩
  rw [hcb] at h
  simp only at h
  subst h
  cases done <;> exact ⟨rfl, rfl⟩

theorem onLikeSubmit_issued (br : Browser) (csrftoken : Option String) (document : Node)
    (e : Event)
    (form : Path) (hf : closest document (br.selector "form.js-like-form") e.target = some form) :
    onLikeSubmit br csrftoken document e =
      { defaultPrevented := true,
        issued := some ({ url := fetchUrl (attributeAt document form "action"),
                          options := fetchOptions csrftoken "POST" (Body.formData form)
                            (some true) },
                        Pending.like
                          ((closest document (br.selector "[id^=\"like-button-\"]") form).map
                            fun p => { path := p, taken := e.dispatched })) } := by
  simp [onLikeSubmit, hf]

theorem onInlineEditSubmit_issued (br : Browser) (csrftoken : Option String) (document : Node)
    (e : Event)
    (form : Path)
    (hf : closest document (br.selector "form.js-inline-edit-form") e.target = some form) :
    onInlineEditSubmit br csrftoken document e =
      { defaultPrevented := true,
        issued := some ({ url := fetchUrl (attributeAt document form "action"),
                          options := fetchOptions csrftoken "POST" (Body.formData form)
                            (some true) },
                        Pending.inlineEditSubmit) } := by
  simp [onInlineEditSubmit, hf]

theorem like_afterResponse (br : Browser) (csrftoken : Option String)
    (document : Node) (e : Event) (form : Path) (html : String) (w : World)
    (hf : closest document (br.selector "form.js-like-form") e.target = some form) :
    (onLikeSubmit br csrftoken document e).settle br
        (Settled.fulfilled (Settled.fulfilled html)) w
      = runChain "Like toggle failed:"
          (likeCallback br
            ((closest document (br.selector "[id^=\"like-button-\"]") form).map
              fun p => { path := p, taken := e.dispatched }))
          (Settled.fulfilled (Settled.fulfilled html)) w := by
  rw [onLikeSubmit_issued br csrftoken document e form hf]; rfl

theorem editSubmit_afterResponse (br : Browser) (csrftoken : Option String)
    (document : Node) (e : Event) (form : Path) (html : String) (w : World)
    (hf : closest document (br.selector "form.js-inline-edit-form") e.target = some form) :
    (onInlineEditSubmit br csrftoken document e).settle br
        (Settled.fulfilled (Settled.fulfilled html)) w
      = runChain "Inline edit submit failed:" (inlineEditSubmitCallback br)
          (Settled.fulfilled (Settled.fulfilled html)) w := by
  rw [onInlineEditSubmit_issued br csrftoken document e form hf]; rfl

theorem editTrigger_afterResponse (br : Browser) (csrftoken : Option String)
    (document : Node) (e : Event) (btn : Path) (url html : String) (w : World)
    (hb : closest document (br.selector ".js-inline-edit-trigger") e.target = some btn)
    (hu : attributeAt document btn "data-edit-url" = some url) (hne : url ≠ "") :
    (onInlineEditTrigger br csrftoken document e).settle br
        (Settled.fulfilled (Settled.fulfilled html)) w
      = runChain "Load inline edit form failed:" (inlineEditTriggerCallback br)
          (Settled.fulfilled (Settled.fulfilled html)) w := by
  rw [onInlineEditTrigger_issued br csrftoken document e btn url hb hu hne]; rfl

theorem runChain_of_callback (msg : String)
    (callback : String → World → World × Settled Unit) (html : String) (w w1 : World)
    (h : callback html w = (w1, Settled.fulfilled ())) :
    runChain msg callback (Settled.fulfilled (Settled.fulfilled html)) w
      = (w1, Settled.fulfilled ()) := by
  simp [runChain, h]

/-! ## The request builder and the cookie reader -/

/-- C1, as stated, fails: with two `csrftoken` cookies in `document.cookie`, and
with one `csrftoken` cookie of empty value, a `POST` built by `fetchOptions`
carries no `X-CSRFToken` header although the cookie string holds a `csrftoken`
cookie. -/
theorem fetchOptions_csrf_header_counterexample :
    (holdsCookie "csrftoken=a; csrftoken=b" "csrftoken"
      ∧ isMutating "POST" = true
      ∧ header (fetchOptions (loadCsrfToken "csrftoken=a; csrftoken=b") "POST"
          Body.undefined none).headers "X-CSRFToken" = none)
    ∧ (holdsCookie "csrftoken=" "csrftoken"
      ∧ loadCsrfToken "csrftoken=" = some ""
      ∧ header (fetchOptions (loadCsrfToken "csrftoken=") "POST"
          Body.undefined none).headers "X-CSRFToken" = none) := by
  decide

/-- C1, amended: for every method whose upper case is POST, PUT, PATCH or
DELETE, every body and multipart flag, with `csrftoken` read from
`document.cookie` when the script loads: if the cookie string holds exactly one
`csrftoken` cookie and its value (the text after `csrftoken=` up to the next
`;`) is not empty, the headers contain `X-CSRFToken` with that value; if it
holds no `csrftoken` cookie, or more than one, or one whose value is empty, the
headers contain no `X-CSRFToken` entry. -/
theorem fetchOptions_csrf_header (cookie method : String) (body : Body)
    (isFormData : Option Bool) (hm : isMutating method = true) :
    (∀ pre post : List Char,
        cookieValue cookie = pre ++ cookieSeparator "csrftoken" ++ post →
        occurrences (cookieSeparator "csrftoken") (cookieValue cookie) = 1 →
        post.takeWhile (fun ch => ch != ';') ≠ [] →
        header (fetchOptions (loadCsrfToken cookie) method body isFormData).headers
            "X-CSRFToken" = some ⟨post.takeWhile (fun ch => ch != ';')⟩)
    ∧ (¬ holdsCookie cookie "csrftoken" →
        header (fetchOptions (loadCsrfToken cookie) method body isFormData).headers
            "X-CSRFToken" = none)
    ∧ (2 ≤ occurrences (cookieSeparator "csrftoken") (cookieValue cookie) →
        header (fetchOptions (loadCsrfToken cookie) method body isFormData).headers
            "X-CSRFToken" = none)
    ∧ (∀ pre post : List Char,
        cookieValue cookie = pre ++ cookieSeparator "csrftoken" ++ post →
        occurrences (cookieSeparator "csrftoken") (cookieValue cookie) = 1 →
        post.takeWhile (fun ch => ch != ';') = [] →
        header (fetchOptions (loadCsrfToken cookie) method body isFormData).headers
            "X-CSRFToken" = none) := by
  have hname : ';' ∉ "csrftoken".data := by decide
  refine ⟨?_, ?_, ?_, ?_⟩
  · intro pre post hd h1 hv
    have hg := getCookie_of_unique cookie "csrftoken" pre post hd h1
    have ht : tokenTruthy (loadCsrfToken cookie) = true := by
      rw [loadCsrfToken, hg]
      simp only [tokenTruthy, decide_eq_true_eq]
      intro h
      apply hv
      have := congrArg String.data h
      simpa using this
    rw [header_csrf, if_pos ⟨hm, ht⟩, loadCsrfToken, hg]
  · intro h
    have h0 : occurrences (cookieSeparator "csrftoken") (cookieValue cookie) ≠ 1 := by
      unfold holdsCookie at h; omega
    have hg := getCookie_eq_none_of_occurrences cookie "csrftoken" hname h0
    rw [header_csrf, loadCsrfToken, hg]; simp
  · intro h
    have hg := getCookie_eq_none_of_occurrences cookie "csrftoken" hname (by omega)
    rw [header_csrf, loadCsrfToken, hg]; simp
  · intro pre post hd h1 hv
    have hg := getCookie_of_unique cookie "csrftoken" pre post hd h1
    rw [header_csrf, loadCsrfToken, hg, hv]
    simp [tokenTruthy]

/-- The amended C1 at the cookie string `a=1; csrftoken=tok; b=2` and the
method `post`: the header is `tok`. -/
theorem fetchOptions_csrf_header_witness :
    isMutating "post" = true
    ∧ header (fetchOptions (loadCsrfToken "a=1; csrftoken=tok; b=2") "post"
        (Body.formData [1]) (some true)).headers "X-CSRFToken" = some "tok" :=
  ⟨by decide,
   (fetchOptions_csrf_header "a=1; csrftoken=tok; b=2" "post" (Body.formData [1]) (some true)
      (by decide)).1 "; a=1".data "tok; b=2".data (by decide) (by decide) (by decide)⟩

/-- C8: the headers returned by `fetchOptions` contain `Content-Type:
application/json` exactly when the multipart flag is not `true` (false or
omitted) and the body is truthy (a non-empty string or an object), and contain
no `Content-Type` otherwise; every result carries `X-Requested-With:
XMLHttpRequest` and credentials `same-origin`; the requests issued by the two
form handlers are POSTs of a `FormData` body without `Content-Type`, the one
issued by the trigger handler is a GET without body and without
`Content-Type`. -/
theorem fetchOptions_content_type (csrftoken : Option String) (method : String) (body : Body)
    (isFormData : Option Bool) :
    (header (fetchOptions csrftoken method body isFormData).headers "Content-Type"
        = some "application/json" ↔ (isFormData ≠ some true ∧ body.truthy = true))
    ∧ (¬ (isFormData ≠ some true ∧ body.truthy = true) →
        header (fetchOptions csrftoken method body isFormData).headers "Content-Type" = none)
    ∧ header (fetchOptions csrftoken method body isFormData).headers "X-Requested-With"
        = some "XMLHttpRequest"
    ∧ (fetchOptions csrftoken method body isFormData).credentials = "same-origin"
    ∧ (∀ (br : Browser) (document : Node) (e : Event) (req : Request) (k : Pending),
        (onLikeSubmit br csrftoken document e).issued = some (req, k) →
        req.options.method = "POST" ∧ (∃ form, req.options.body = Body.formData form)
        ∧ header req.options.headers "Content-Type" = none
        ∧ header req.options.headers "X-Requested-With" = some "XMLHttpRequest"
        ∧ req.options.credentials = "same-origin")
    ∧ (∀ (br : Browser) (document : Node) (e : Event) (req : Request) (k : Pending),
        (onInlineEditSubmit br csrftoken document e).issued = some (req, k) →
        req.options.method = "POST" ∧ (∃ form, req.options.body = Body.formData form)
        ∧ header req.options.headers "Content-Type" = none
        ∧ header req.options.headers "X-Requested-With" = some "XMLHttpRequest"
        ∧ req.options.credentials = "same-origin")
    ∧ (∀ (br : Browser) (document : Node) (e : Event) (req : Request) (k : Pending),
        (onInlineEditTrigger br csrftoken document e).issued = some (req, k) →
        req.options.method = "GET" ∧ req.options.body = Body.undefined
        ∧ header req.options.headers "Content-Type" = none
        ∧ header req.options.headers "X-Requested-With" = some "XMLHttpRequest"
        ∧ req.options.credentials = "same-origin") := by
  refine ⟨?_, ?_, header_requested_with _ _ _ _, rfl, ?_, ?_, ?_⟩
  · rw [header_content_type]
    by_cases h : isFormData ≠ some true ∧ body.truthy = true <;> simp [h]
  · intro h
    rw [header_content_type, if_neg h]
  · intro br document e req k h
    unfold onLikeSubmit at h
    cases hc : closest document (br.selector "form.js-like-form") e.target with
    | none => simp [hc, Handled.nothing] at h
    | some form =>
      simp only [hc, Option.some.injEq, Prod.mk.injEq] at h
      obtain ⟨hr, _⟩ := h
      subst hr
      exact ⟨rfl, ⟨form, rfl⟩, by rw [header_content_type]; simp,
        header_requested_with _ _ _ _, rfl⟩
  · intro br document e req k h
    unfold onInlineEditSubmit at h
    cases hc : closest document (br.selector "form.js-inline-edit-form") e.target with
    | none => simp [hc, Handled.nothing] at h
    | some form =>
      simp only [hc, Option.some.injEq, Prod.mk.injEq] at h
      obtain ⟨hr, _⟩ := h
      subst hr
      exact ⟨rfl, ⟨form, rfl⟩, by rw [header_content_type]; simp,
        header_requested_with _ _ _ _, rfl⟩
  · intro br document e req k h
    unfold onInlineEditTrigger at h
    cases hc : closest document (br.selector ".js-inline-edit-trigger") e.target with
    | none => simp [hc, Handled.nothing] at h
    | some btn =>
      simp only [hc] at h
      cases hu : attributeAt document btn "data-edit-url" with
      | none => simp [hu] at h
      | some url =>
        simp only [hu] at h
        by_cases he : url = ""
        · simp [he] at h
        · simp only [he, if_false, Option.some.injEq, Prod.mk.injEq] at h
          obtain ⟨hr, _⟩ := h
          subst hr
          exact ⟨rfl, rfl, by rw [header_content_type]; simp [Body.truthy],
            header_requested_with _ _ _ _, rfl⟩

/-- C8 at a JSON body and on the post page: a `POST` of the string `{}` without
the multipart flag carries `Content-Type: application/json`, and the request
issued by submitting the like form carries none. -/
theorem fetchOptions_content_type_witness :
    header (fetchOptions none "POST" (Body.text "{}") none).headers "Content-Type"
      = some "application/json"
    ∧ (onLikeSubmit (Browser.answering likedResponse) none postPage likeSubmission).issued
        = some ({ url := "/posts/42/like/",
                  options := fetchOptions none "POST" (Body.formData [1, 0, 0]) (some true) },
                Pending.like (some { path := [1, 0], taken := 0 }))
    ∧ header (fetchOptions none "POST" (Body.formData [1, 0, 0]) (some true)).headers
        "Content-Type" = none :=
  ⟨(fetchOptions_content_type none "POST" (Body.text "{}") none).1.mpr ⟨by decide, by decide⟩,
   by decide,
   ((fetchOptions_content_type none "POST" (Body.text "{}") none).2.2.2.2.1
      (Browser.answering likedResponse) postPage likeSubmission _ _ rfl).2.2.1⟩

/-- C9: for every cookie string `c` and every cookie name `n` (a name holds no
`;`): `getCookie(n)` returns a value exactly when `; n=` occurs exactly once in
`; ` followed by `c`; the value is then the text after that occurrence up to
the next `;` or the end; with no occurrence, or with two or more, the result
is `undefined`; and a cookie string made of one cookie whose name is `n` with
something in front of it (as `xcsrftoken` for `csrftoken`) gives `undefined`. -/
theorem getCookie_spec (c n : String) (hn : ';' ∉ n.data) :
    ((getCookie c n).isSome = true ↔ occurrences (cookieSeparator n) (cookieValue c) = 1)
    ∧ (∀ pre post : List Char, cookieValue c = pre ++ cookieSeparator n ++ post →
        occurrences (cookieSeparator n) (cookieValue c) = 1 →
        getCookie c n = some ⟨post.takeWhile (fun ch => ch != ';')⟩)
    ∧ (occurrences (cookieSeparator n) (cookieValue c) = 0 → getCookie c n = none)
    ∧ (2 ≤ occurrences (cookieSeparator n) (cookieValue c) → getCookie c n = none)
    ∧ (∀ x v : String, x ≠ "" → ';' ∉ x.data → '=' ∉ x.data → '=' ∉ n.data →
        ';' ∉ v.data → getCookie (x ++ n ++ "=" ++ v) n = none) :=
  ⟨getCookie_isSome_iff c n hn,
   fun pre post hd h1 => getCookie_of_unique c n pre post hd h1,
   fun h => getCookie_eq_none_of_occurrences c n hn (by omega),
   fun h => getCookie_eq_none_of_occurrences c n hn (by omega),
   fun x v hx hsx hex hen hsv => getCookie_longer_name x n v hx hsx hex hn hen hsv⟩

/-- C9 at the cookie string `a=1; csrftoken=tok; b=2`: the name occurs once and
the value is `tok`; and `xcsrftoken=abc` gives nothing for `csrftoken`. -/
theorem getCookie_spec_witness :
    ';' ∉ "csrftoken".data
    ∧ getCookie "a=1; csrftoken=tok; b=2" "csrftoken" = some "tok"
    ∧ getCookie "xcsrftoken=abc" "csrftoken" = none :=
  ⟨by decide,
   (getCookie_spec "a=1; csrftoken=tok; b=2" "csrftoken" (by decide)).2.1
      "; a=1".data "tok; b=2".data (by decide) (by decide),
   (getCookie_spec "" "csrftoken" (by decide)).2.2.2.2 "x" "abc"
      (by decide) (by decide) (by decide) (by decide) (by decide)⟩

/-! ## The swap utility -/

/-- C2: for every HTML text, selector and target (possibly `null`),
`swapFromHTML` returns `true` exactly when the selector matches some element of
the parsed text and the target is not `null`; the live document then is the one
in which the target has been replaced by the first element of the parsed text
that matches (the node at the target's position is that element); in every
other case it returns `false` and the page is unchanged. -/
theorem swapFromHTML_spec (br : Browser) (html : String) (selector : String)
    (target : Option Path) (w : World) :
    ((swapFromHTML br html selector target w).1 = true
        ↔ (∃ el ∈ elements (br.parse html), br.selector selector (br.parse html) el.1 = true)
          ∧ target.isSome = true)
    ∧ (∀ (t : Path) (r : Path × Node), target = some t →
        querySelector (br.parse html) (br.selector selector) = some r →
        (swapFromHTML br html selector target w).1 = true
        ∧ (swapFromHTML br html selector target w).2.document
            = replaceWith w.document t r.2
        ∧ (∀ old, getAt w.document t = some old →
            getAt (swapFromHTML br html selector target w).2.document t = some r.2))
    ∧ (∀ r : Path × Node, querySelector (br.parse html) (br.selector selector) = some r →
        br.selector selector (br.parse html) r.1 = true
        ∧ ∃ before after, elements (br.parse html) = before ++ r :: after
            ∧ ∀ x ∈ before, br.selector selector (br.parse html) x.1 = false)
    ∧ ((swapFromHTML br html selector target w).1 = false →
        (swapFromHTML br html selector target w).2 = w) := by
  refine ⟨?_, ?_, ?_, ?_⟩
  · cases hq : querySelector (br.parse html) (br.selector selector) with
    | none =>
      rw [swapFromHTML_none br html selector target w hq]
      have hn := hq
      simp only [querySelector, List.find?_eq_none] at hn
      constructor
      · intro h; simp at h
      · rintro ⟨⟨el, hel, hs⟩, _⟩
        exact absurd hs (hn el hel)
    | some r =>
      have hq2 : List.find? (fun (el : Path × Node) => br.selector selector (br.parse html) el.1)
          (elements (br.parse html)) = some r := hq
      have hs := List.find?_some hq2
      have hm : ∃ el ∈ elements (br.parse html),
          br.selector selector (br.parse html) el.1 = true :=
        ⟨r, List.mem_of_find?_eq_some hq, hs⟩
      cases target with
      | none => rw [swapFromHTML_null]; simp
      | some t => rw [swapFromHTML_some br html selector t r w hq]; simp [hm]
  · intro t r ht hr
    subst ht
    rw [swapFromHTML_some br html selector t r w hr]
    refine ⟨rfl, rfl, ?_⟩
    intro old hold
    exact getAt_replaceWith r.2 t w.document old hold
  · intro r hr
    simp only [querySelector, List.find?_eq_some] at hr
    obtain ⟨h1, before, after, h2, h3⟩ := hr
    exact ⟨h1, before, after, h2, fun x hx => by simpa using h3 x hx⟩
  · intro h
    cases hq : querySelector (br.parse html) (br.selector selector) with
    | none => rw [swapFromHTML_none br html selector target w hq]
    | some r =>
      cases target with
      | none => rw [swapFromHTML_null]
      | some t =>
        rw [swapFromHTML_some br html selector t r w hq] at h
        simp at h

/-- C2 on the post page: swapping `#post-detail-body` out of the response
`<main id="post-detail-body">` puts the parsed `main` element at position
`[1, 1]`, and a `null` target leaves the page as it is. -/
theorem swapFromHTML_spec_witness :
    getAt (swapFromHTML (Browser.answering editedResponse) "" "#post-detail-body" (some [1, 1])
        (World.initial postPage)).2.document [1, 1]
      = some (.element "main" [("id", "post-detail-body")] [.element "p" [] [.text "Edited"]])
    ∧ (swapFromHTML (Browser.answering editedResponse) "" "#post-detail-body" none
        (World.initial postPage)).2 = World.initial postPage :=
  ⟨((swapFromHTML_spec (Browser.answering editedResponse) "" "#post-detail-body" (some [1, 1])
      (World.initial postPage)).2.1 [1, 1] _ rfl rfl).2.2 _ rfl,
   (swapFromHTML_spec (Browser.answering editedResponse) "" "#post-detail-body" none
      (World.initial postPage)).2.2.2 rfl⟩

/-! ## The like button -/

/-- C3, as stated, fails: the like form of the post page is submitted twice
before any response arrives, and the responses `♥ 5` and `♥ 6` arrive in that
order.  The form has the wrapper `#like-button-42`, and the parsed body of the
second response has a first element child, yet the second response replaces
nothing: the wrapper the second submission holds was taken out of the live
document by the first response.  The page after the second response is the page
after the first one, with `♥ 5` at position `[1, 0]` and one replacement
made. -/
theorem onLikeSubmit_swap_counterexample :
    closest postPage likeFormSelector likeSubmission.target = some [1, 0, 0]
    ∧ closest postPage likeButtonSelector [1, 0, 0] = some [1, 0]
    ∧ (body likedAgainResponse).bind firstElementChild = some (likedButton [.text "♥ 6"])
    ∧ getAt ((onLikeSubmit Browser.liking none postPage likeSubmission).afterResponse
          Browser.liking "<div id=\"like-button-42\" data-liked=\"true\">♥ 5</div>"
          (World.initial postPage)).document [1, 0]
        = some (likedButton [.text "♥ 5"])
    ∧ ((onLikeSubmit Browser.liking none postPage likeSubmission).afterResponse
          Browser.liking "<div id=\"like-button-42\" data-liked=\"true\">♥ 6</div>"
          ((onLikeSubmit Browser.liking none postPage likeSubmission).afterResponse
            Browser.liking "<div id=\"like-button-42\" data-liked=\"true\">♥ 5</div>"
            (World.initial postPage))).document
        = ((onLikeSubmit Browser.liking none postPage likeSubmission).afterResponse
            Browser.liking "<div id=\"like-button-42\" data-liked=\"true\">♥ 5</div>"
            (World.initial postPage)).document
    ∧ getAt ((onLikeSubmit Browser.liking none postPage likeSubmission).afterResponse
          Browser.liking "<div id=\"like-button-42\" data-liked=\"true\">♥ 6</div>"
          ((onLikeSubmit Browser.liking none postPage likeSubmission).afterResponse
            Browser.liking "<div id=\"like-button-42\" data-liked=\"true\">♥ 5</div>"
            (World.initial postPage))).document [1, 0]
        = some (likedButton [.text "♥ 5"])
    ∧ ((onLikeSubmit Browser.liking none postPage likeSubmission).afterResponse
          Browser.liking "<div id=\"like-button-42\" data-liked=\"true\">♥ 6</div>"
          ((onLikeSubmit Browser.liking none postPage likeSubmission).afterResponse
            Browser.liking "<div id=\"like-button-42\" data-liked=\"true\">♥ 5</div>"
            (World.initial postPage))).replacements = 1 :=
  ⟨by decide, by decide, rfl, rfl, rfl, rfl, rfl⟩

/-- C3, amended: for every like-form submission handled by `onLikeSubmit` (the
target has a closest `form.js-like-form`) and every response text, on the page
as it is when the response arrives.  When the form has a closest
`[id^="like-button-"]` wrapper and that wrapper is still in the live document:
if the parsed response has a body, the wrapper is replaced by the first element
child of the parsed body if there is one, whatever its id, otherwise by the
first element of the parsed response matching `[id^="like-button-"]`, and with
neither the page is unchanged.  When the wrapper is no longer in the live
document, the live document is unchanged and no replacement is made; when the
form has no wrapper, the page is unchanged.  The wrapper is still in the live
document when no replacement has been made since the submission.  In
particular a response parsed as
`<div id="like-button-42" data-liked="true">...</div>` replaces a wrapper that
is still in the live document with that div. -/
theorem onLikeSubmit_swap (br : Browser) (csrftoken : Option String) (document : Node)
    (e : Event) (html : String) (form : Path) (w : World)
    (hform : closest document (br.selector "form.js-like-form") e.target = some form) :
    (∀ (wrapper : Path) (b : Node),
        closest document (br.selector "[id^=\"like-button-\"]") form = some wrapper →
        w.locate { path := wrapper, taken := e.dispatched } = some wrapper →
        body (br.parse html) = some b →
        (∀ c, firstElementChild b = some c →
            (onLikeSubmit br csrftoken document e).afterResponse br html w
              = w.replace wrapper c)
        ∧ (∀ r : Path × Node, firstElementChild b = none →
            querySelector (br.parse html) (br.selector "[id^=\"like-button-\"]") = some r →
            (onLikeSubmit br csrftoken document e).afterResponse br html w
              = w.replace wrapper r.2)
        ∧ (firstElementChild b = none →
            querySelector (br.parse html) (br.selector "[id^=\"like-button-\"]") = none →
            (onLikeSubmit br csrftoken document e).afterResponse br html w = w))
    ∧ (∀ wrapper : Path,
        closest document (br.selector "[id^=\"like-button-\"]") form = some wrapper →
        w.locate { path := wrapper, taken := e.dispatched } = none →
        ((onLikeSubmit br csrftoken document e).afterResponse br html w).document
            = w.document
        ∧ ((onLikeSubmit br csrftoken document e).afterResponse br html w).replaced
            = w.replaced)
    ∧ (closest document (br.selector "[id^=\"like-button-\"]") form = none →
        (onLikeSubmit br csrftoken document e).afterResponse br html w = w)
    ∧ (∀ wrapper : Path, w.replacements ≤ e.dispatched →
        w.locate { path := wrapper, taken := e.dispatched } = some wrapper)
    ∧ (∀ (wrapper : Path) (children : List Node),
        closest document (br.selector "[id^=\"like-button-\"]") form = some wrapper →
        w.locate { path := wrapper, taken := e.dispatched } = some wrapper →
        br.parse html = likeResponse children →
        ((onLikeSubmit br csrftoken document e).afterResponse br html w).document
          = replaceWith w.document wrapper (likedButton children)) := by
  have hch : ∀ wrapper b c,
      closest document (br.selector "[id^=\"like-button-\"]") form = some wrapper →
      w.locate { path := wrapper, taken := e.dispatched } = some wrapper →
      body (br.parse html) = some b → firstElementChild b = some c →
      (onLikeSubmit br csrftoken document e).afterResponse br html w
        = w.replace wrapper c := by
    intro wrapper b c hw hl hb hc
    rw [Handled.afterResponse, like_afterResponse br csrftoken document e form html w hform,
      hw, Option.map_some',
      runChain_of_callback _ _ _ _ _ (likeCallback_first_child br _ html w b c hb hc)]
    exact replaceRef_of_located w _ wrapper c hl
  refine ⟨?_, ?_, ?_, ?_, ?_⟩
  · intro wrapper b hw hl hb
    refine ⟨fun c hc => hch wrapper b c hw hl hb hc, ?_, ?_⟩
    · intro r hc hr
      rw [Handled.afterResponse,
        like_afterResponse br csrftoken document e form html w hform, hw, Option.map_some',
        runChain_of_callback _ _ _ _ _ (likeCallback_selector br _ html w b r hb hc hr)]
      exact replaceRef_of_located w _ wrapper r.2 hl
    · intro hc hr
      rw [Handled.afterResponse,
        like_afterResponse br csrftoken document e form html w hform, hw, Option.map_some',
        runChain_of_callback _ _ _ _ _ (likeCallback_nothing br _ html w b hb hc hr)]
  · intro wrapper hw hl
    rw [Handled.afterResponse, like_afterResponse br csrftoken document e form html w hform,
      hw, Option.map_some']
    exact runChain_document _ _ html w (likeCallback_detached br _ html w hl)
  · intro hw
    rw [Handled.afterResponse, like_afterResponse br csrftoken document e form html w hform,
      hw, Option.map_none', runChain_of_callback _ _ _ _ _ (likeCallback_no_wrapper br html w)]
  · intro wrapper h
    exact locate_of_no_replacement w { path := wrapper, taken := e.dispatched } h
  · intro wrapper children hw hl hp
    have hb : body (br.parse html) = some (.element "body" [] [likedButton children]) := by
      rw [hp]; rfl
    rw [hch wrapper _ (likedButton children) hw hl hb rfl]
    rfl

/-- The amended C3 on the post page: the like form is submitted and the response
`<div id="like-button-42" data-liked="true">♥ 5</div>` arrives before anything
else is replaced; the wrapper at position `[1, 0]` is then that div. -/
theorem onLikeSubmit_swap_witness :
    closest postPage likeFormSelector likeSubmission.target = some [1, 0, 0]
    ∧ closest postPage likeButtonSelector [1, 0, 0] = some [1, 0]
    ∧ (onLikeSubmit (Browser.answering likedResponse) none postPage likeSubmission).issued.map
          (fun r => (r.1.url, r.1.options.method)) = some ("/posts/42/like/", "POST")
    ∧ getAt ((onLikeSubmit (Browser.answering likedResponse) none postPage
          likeSubmission).afterResponse (Browser.answering likedResponse)
          "<div id=\"like-button-42\" data-liked=\"true\">♥ 5</div>"
          (World.initial postPage)).document [1, 0]
        = some (likedButton [.text "♥ 5"]) :=
  ⟨by decide, by decide, by decide,
   (congrArg (fun d => getAt d [1, 0])
      ((onLikeSubmit_swap (Browser.answering likedResponse) none postPage likeSubmission
        "<div id=\"like-button-42\" data-liked=\"true\">♥ 5</div>" [1, 0, 0]
        (World.initial postPage) (by decide)).2.2.2.2 [1, 0] [.text "♥ 5"] (by decide)
        (by decide) rfl)).trans rfl⟩

/-! ## Inline editing -/

/-- C4, as stated, fails: the inline-edit form of the edit page is submitted and
the response is `<frameset></frameset>`, which parses to a document without
`#post-detail-body`, without `main` and without `body`.  The live document has
a `#post-detail-body` container, yet it is not replaced: the page is unchanged
and no replacement was made, where the claim has exactly one. -/
theorem onInlineEditSubmit_swap_counterexample :
    (querySelector editPage postDetailBodySelector).isSome = true
    ∧ (onInlineEditSubmit (Browser.answering framesetResponse) none editPage
        editSubmission).issued.isSome = true
    ∧ (querySelector framesetResponse postDetailBodySelector).isSome = false
    ∧ (querySelector framesetResponse mainOrBodySelector).isSome = false
    ∧ ((onInlineEditSubmit (Browser.answering framesetResponse) none editPage
          editSubmission).afterResponse (Browser.answering framesetResponse)
          "<frameset></frameset>" (World.initial editPage)).document = editPage
    ∧ ((onInlineEditSubmit (Browser.answering framesetResponse) none editPage
          editSubmission).afterResponse (Browser.answering framesetResponse)
          "<frameset></frameset>" (World.initial editPage)).replacements = 0 :=
  ⟨by decide, by decide, by decide, by decide, rfl, rfl⟩

/-- C4, amended: for every inline-edit form submission handled by
`onInlineEditSubmit` and every response text, on the page as it is when the
response arrives: when the live document has an element `#post-detail-body`
(the first one is the container), the container is replaced by the first
`#post-detail-body` element of the parsed response if there is one, otherwise
by the first element of the parsed response matching `main, body` if there is
one, and each time that is the one replacement made; when the parsed response
has neither, or the live document has no `#post-detail-body`, the page is
unchanged. At most one replacement is made per response. -/
theorem onInlineEditSubmit_swap (br : Browser) (csrftoken : Option String)
    (document : Node) (e : Event) (form : Path) (html : String) (w : World)
    (hform : closest document (br.selector "form.js-inline-edit-form") e.target = some form) :
    (∀ cur r : Path × Node,
        querySelector w.document (br.selector "#post-detail-body") = some cur →
        querySelector (br.parse html) (br.selector "#post-detail-body") = some r →
        (onInlineEditSubmit br csrftoken document e).afterResponse br html w
          = { document := replaceWith w.document cur.1 r.2, console := w.console,
              replaced := w.replaced ++ [cur.1] })
    ∧ (∀ cur m : Path × Node,
        querySelector w.document (br.selector "#post-detail-body") = some cur →
        querySelector (br.parse html) (br.selector "#post-detail-body") = none →
        querySelector (br.parse html) (br.selector "main, body") = some m →
        (onInlineEditSubmit br csrftoken document e).afterResponse br html w
          = { document := replaceWith w.document cur.1 m.2, console := w.console,
              replaced := w.replaced ++ [cur.1] })
    ∧ (querySelector (br.parse html) (br.selector "#post-detail-body") = none →
        querySelector (br.parse html) (br.selector "main, body") = none →
        (onInlineEditSubmit br csrftoken document e).afterResponse br html w = w)
    ∧ (querySelector w.document (br.selector "#post-detail-body") = none →
        (onInlineEditSubmit br csrftoken document e).afterResponse br html w = w)
    ∧ ((onInlineEditSubmit br csrftoken document e).afterResponse br html w).replacements
        ≤ w.replacements + 1 := by
  have h1 : ∀ cur r : Path × Node,
      querySelector w.document (br.selector "#post-detail-body") = some cur →
      querySelector (br.parse html) (br.selector "#post-detail-body") = some r →
      (onInlineEditSubmit br csrftoken document e).afterResponse br html w
        = w.replace cur.1 r.2 := by
    intro cur r hc hr
    rw [Handled.afterResponse, editSubmit_afterResponse br csrftoken document e form html w
      hform, runChain_of_callback _ _ _ _ _ (inlineEditSubmitCallback_swap br html w cur r hc hr)]
  have h2 : ∀ cur m : Path × Node,
      querySelector w.document (br.selector "#post-detail-body") = some cur →
      querySelector (br.parse html) (br.selector "#post-detail-body") = none →
      querySelector (br.parse html) (br.selector "main, body") = some m →
      (onInlineEditSubmit br csrftoken document e).afterResponse br html w
        = w.replace cur.1 m.2 := by
    intro cur m hc hr hm
    rw [Handled.afterResponse, editSubmit_afterResponse br csrftoken document e form html w
      hform, runChain_of_callback _ _ _ _ _
        (inlineEditSubmitCallback_fallback br html w cur m hc hr hm)]
  have h3 : querySelector (br.parse html) (br.selector "#post-detail-body") = none →
      querySelector (br.parse html) (br.selector "main, body") = none →
      (onInlineEditSubmit br csrftoken document e).afterResponse br html w = w := by
    intro hr hm
    rw [Handled.afterResponse, editSubmit_afterResponse br csrftoken document e form html w
      hform, runChain_of_callback _ _ _ _ _ (inlineEditSubmitCallback_nothing br html w hr hm)]
  have h4 : querySelector w.document (br.selector "#post-detail-body") = none →
      (onInlineEditSubmit br csrftoken document e).afterResponse br html w = w := by
    intro hc
    rw [Handled.afterResponse, editSubmit_afterResponse br csrftoken document e form html w
      hform, runChain_of_callback _ _ _ _ _
        (inlineEditSubmitCallback_no_container br html w hc)]
  refine ⟨h1, h2, h3, h4, ?_⟩
  cases hc : querySelector w.document (br.selector "#post-detail-body") with
  | none => rw [h4 hc]; omega
  | some cur =>
    cases hr : querySelector (br.parse html) (br.selector "#post-detail-body") with
    | some r => rw [h1 cur r hc hr]; simp [World.replace, World.replacements]
    | none =>
      cases hm : querySelector (br.parse html) (br.selector "main, body") with
      | some m => rw [h2 cur m hc hr hm]; simp [World.replace, World.replacements]
      | none => rw [h3 hr hm]; omega

/-- The amended C4 on the edit page: the form is submitted and the response
`<main id="post-detail-body"><p>Edited</p></main>` arrives; the container at
position `[1, 1]` is then the parsed `main` element, after one replacement. -/
theorem onInlineEditSubmit_swap_witness :
    closest editPage inlineEditFormSelector editSubmission.target = some [1, 1, 0]
    ∧ (onInlineEditSubmit (Browser.answering editedResponse) none editPage
          editSubmission).issued.map (fun r => (r.1.url, r.1.options.method))
        = some ("/posts/42/edit/", "POST")
    ∧ getAt ((onInlineEditSubmit (Browser.answering editedResponse) none editPage
          editSubmission).afterResponse (Browser.answering editedResponse)
          "<main id=\"post-detail-body\"><p>Edited</p></main>"
          (World.initial editPage)).document [1, 1]
        = some (.element "main" [("id", "post-detail-body")] [.element "p" [] [.text "Edited"]])
    ∧ ((onInlineEditSubmit (Browser.answering editedResponse) none editPage
          editSubmission).afterResponse (Browser.answering editedResponse)
          "<main id=\"post-detail-body\"><p>Edited</p></main>"
          (World.initial editPage)).replacements = 1 :=
  ⟨by decide, by decide,
   (congrArg (fun w => getAt w.document [1, 1])
      ((onInlineEditSubmit_swap (Browser.answering editedResponse) none editPage editSubmission
        [1, 1, 0] "<main id=\"post-detail-body\"><p>Edited</p></main>"
        (World.initial editPage) (by decide)).1 _ _ rfl rfl)).trans rfl,
   (congrArg World.replacements
      ((onInlineEditSubmit_swap (Browser.answering editedResponse) none editPage editSubmission
        [1, 1, 0] "<main id=\"post-detail-body\"><p>Edited</p></main>"
        (World.initial editPage) (by decide)).1 _ _ rfl rfl)).trans rfl⟩

/-- C5: for every click handled by `onInlineEditTrigger` (the target has a
closest `.js-inline-edit-trigger` element): with no `data-edit-url` attribute,
or an empty one, no request is issued and the page is unchanged whatever
happens later; otherwise exactly the request `GET` to that URL is issued, and
for every response text, on the page as it is when the response arrives, the
first live `#post-detail-body` is replaced by the first `#post-detail-body` of
the parsed response when both exist, and the page is unchanged when the
response has none or the live document has none: there is no `main`/`body`
fallback. -/
theorem onInlineEditTrigger_swap (br : Browser) (csrftoken : Option String)
    (document : Node) (e : Event) (btn : Path) (w : World)
    (hbtn : closest document (br.selector ".js-inline-edit-trigger") e.target = some btn) :
    ((attributeAt document btn "data-edit-url" = none
        ∨ attributeAt document btn "data-edit-url" = some "") →
        (onInlineEditTrigger br csrftoken document e).issued = none
        ∧ ∀ net, ((onInlineEditTrigger br csrftoken document e).settle br net w).1 = w)
    ∧ (∀ url : String, attributeAt document btn "data-edit-url" = some url → url ≠ "" →
        (onInlineEditTrigger br csrftoken document e).issued
          = some ({ url := url, options := fetchOptions csrftoken "GET" Body.undefined none },
                  Pending.inlineEditTrigger)
        ∧ (fetchOptions csrftoken "GET" Body.undefined none).method = "GET"
        ∧ ∀ html : String,
          (∀ cur r : Path × Node,
            querySelector w.document (br.selector "#post-detail-body") = some cur →
            querySelector (br.parse html) (br.selector "#post-detail-body") = some r →
            (onInlineEditTrigger br csrftoken document e).afterResponse br html w
              = { document := replaceWith w.document cur.1 r.2, console := w.console,
                  replaced := w.replaced ++ [cur.1] })
          ∧ (querySelector (br.parse html) (br.selector "#post-detail-body") = none →
              (onInlineEditTrigger br csrftoken document e).afterResponse br html w = w)
          ∧ (querySelector w.document (br.selector "#post-detail-body") = none →
              (onInlineEditTrigger br csrftoken document e).afterResponse br html w = w)) := by
  refine ⟨?_, ?_⟩
  · intro hu
    rw [onInlineEditTrigger_no_url br csrftoken document e btn hbtn hu]
    exact ⟨rfl, fun _ => rfl⟩
  · intro url hu hne
    refine ⟨by rw [onInlineEditTrigger_issued br csrftoken document e btn url hbtn hu hne],
      rfl, ?_⟩
    intro html
    refine ⟨?_, ?_, ?_⟩
    · intro cur r hc hr
      rw [Handled.afterResponse,
        editTrigger_afterResponse br csrftoken document e btn url html w hbtn hu hne,
        runChain_of_callback _ _ _ _ _ (inlineEditTriggerCallback_swap br html w cur r hc hr)]
      rfl
    · intro hr
      rw [Handled.afterResponse,
        editTrigger_afterResponse br csrftoken document e btn url html w hbtn hu hne,
        runChain_of_callback _ _ _ _ _ (inlineEditTriggerCallback_no_match br html w hr)]
    · intro hc
      rw [Handled.afterResponse,
        editTrigger_afterResponse br csrftoken document e btn url html w hbtn hu hne,
        runChain_of_callback _ _ _ _ _
          (inlineEditTriggerCallback_no_container br html w hc)]

/-- C5 on the post page: a click on the edit trigger issues a `GET` to
`/posts/42/edit/form/`, and the response `<main id="post-detail-body">` puts the
parsed `main` element at position `[1, 1]`. -/
theorem onInlineEditTrigger_swap_witness :
    closest postPage inlineEditTriggerSelector triggerClick.target = some [1, 1, 1]
    ∧ (onInlineEditTrigger (Browser.answering editedResponse) none postPage
          triggerClick).issued.map (fun r => (r.1.url, r.1.options.method))
        = some ("/posts/42/edit/form/", "GET")
    ∧ getAt ((onInlineEditTrigger (Browser.answering editedResponse) none postPage
          triggerClick).afterResponse (Browser.answering editedResponse)
          "<main id=\"post-detail-body\"><p>Edited</p></main>"
          (World.initial postPage)).document [1, 1]
        = some (.element "main" [("id", "post-detail-body")] [.element "p" [] [.text "Edited"]]) :=
  ⟨by decide, by decide,
   (congrArg (fun w => getAt w.document [1, 1])
      ((((onInlineEditTrigger_swap (Browser.answering editedResponse) none postPage triggerClick
        [1, 1, 1] (World.initial postPage) (by decide)).2 "/posts/42/edit/form/" (by decide)
          (by decide)).2.2 "<main id=\"post-detail-body\"><p>Edited</p></main>").1 _ _
        rfl rfl)).trans rfl⟩

/-- C6, as stated, fails: on the post page a click on the trigger with
`data-edit-url="/posts/42/edit/form/"` issues a `GET` to that URL, and the
response `<main><p>Edit form</p></main>` (no `#post-detail-body`, one `main`)
leaves the page unchanged: the container at position `[1, 1]` is still the
live `div`, not the parsed `main` element, and no replacement was made. -/
theorem onInlineEditTrigger_main_counterexample :
    attributeAt postPage triggerClick.target "data-edit-url" = some "/posts/42/edit/form/"
    ∧ (onInlineEditTrigger (Browser.answering mainResponse) none postPage
          triggerClick).issued.map (fun r => (r.1.url, r.1.options.method))
        = some ("/posts/42/edit/form/", "GET")
    ∧ (querySelector mainResponse postDetailBodySelector).isSome = false
    ∧ (querySelector mainResponse (elementSelector fun t _ => t = "main")).isSome = true
    ∧ ((onInlineEditTrigger (Browser.answering mainResponse) none postPage
          triggerClick).afterResponse (Browser.answering mainResponse)
          "<main><p>Edit form</p></main>" (World.initial postPage)).document = postPage
    ∧ ((onInlineEditTrigger (Browser.answering mainResponse) none postPage
          triggerClick).afterResponse (Browser.answering mainResponse)
          "<main><p>Edit form</p></main>" (World.initial postPage)).replacements = 0
    ∧ attributeAt ((onInlineEditTrigger (Browser.answering mainResponse) none postPage
          triggerClick).afterResponse (Browser.answering mainResponse)
          "<main><p>Edit form</p></main>" (World.initial postPage)).document [1, 1] "id"
        = some "post-detail-body" :=
  ⟨by decide, by decide, by decide, by decide, rfl, rfl, by decide⟩

/-- C6, amended: for a click on an inline-edit trigger with
`data-edit-url="/posts/42/edit/form/"`, a `GET` is issued to that URL, and when
the parsed response lacks an element `#post-detail-body` the page is left
unchanged, whether or not the response contains a `main` element. -/
theorem onInlineEditTrigger_no_main_fallback (br : Browser)
    (csrftoken : Option String) (document : Node) (e : Event) (btn : Path) (html : String)
    (w : World)
    (hbtn : closest document (br.selector ".js-inline-edit-trigger") e.target = some btn)
    (hurl : attributeAt document btn "data-edit-url" = some "/posts/42/edit/form/")
    (hresp : querySelector (br.parse html) (br.selector "#post-detail-body") = none) :
    (∃ req k, (onInlineEditTrigger br csrftoken document e).issued = some (req, k)
        ∧ req.url = "/posts/42/edit/form/" ∧ req.options.method = "GET")
    ∧ (onInlineEditTrigger br csrftoken document e).afterResponse br html w = w := by
  have hne : "/posts/42/edit/form/" ≠ "" := by decide
  refine ⟨⟨_, _, by rw [onInlineEditTrigger_issued br csrftoken document e btn _ hbtn hurl hne],
    rfl, rfl⟩, ?_⟩
  rw [Handled.afterResponse,
    editTrigger_afterResponse br csrftoken document e btn _ html w hbtn hurl hne,
    runChain_of_callback _ _ _ _ _ (inlineEditTriggerCallback_no_match br html w hresp)]

/-- The amended C6 on the post page, with the response `<main><p>Edit
form</p></main>`: the page is the same afterwards. -/
theorem onInlineEditTrigger_no_main_fallback_witness :
    closest postPage inlineEditTriggerSelector triggerClick.target = some [1, 1, 1]
    ∧ attributeAt postPage [1, 1, 1] "data-edit-url" = some "/posts/42/edit/form/"
    ∧ (querySelector mainResponse postDetailBodySelector).isSome = false
    ∧ ((onInlineEditTrigger (Browser.answering mainResponse) none postPage
          triggerClick).afterResponse (Browser.answering mainResponse)
          "<main><p>Edit form</p></main>" (World.initial postPage)).document = postPage :=
  ⟨by decide, by decide, by decide,
   congrArg World.document
    (onInlineEditTrigger_no_main_fallback (Browser.answering mainResponse) none postPage
      triggerClick [1, 1, 1] "<main><p>Edit form</p></main>" (World.initial postPage)
      (by decide) (by decide) rfl).2⟩

/-! ## Failures and dispatch -/

theorem resume_settles (br : Browser) (k : Pending) (net : NetworkOutcome)
    (w : World) : (k.resume br net w).2 = Settled.fulfilled () := by
  cases k <;> exact runChain_settles _ _ _ _

theorem settle_settles (br : Browser) (h : Handled) (net : NetworkOutcome)
    (w : World) : (h.settle br net w).2 = Settled.fulfilled () := by
  unfold Handled.settle
  cases h.issued with
  | none => rfl
  | some rk =>
    obtain ⟨req, k⟩ := rk
    exact resume_settles br k net w

theorem settle_failure (br : Browser) (h : Handled) (err : String)
    (net : NetworkOutcome)
    (hnet : net = Settled.rejected err ∨ net = Settled.fulfilled (Settled.rejected err))
    (w : World) (msg : String)
    (hl : ∀ req k, h.issued = some (req, k) →
      ∀ n v, k.resume br n v = runChain msg
        (match k with
          | .like wrapper => likeCallback br wrapper
          | .inlineEditSubmit => inlineEditSubmitCallback br
          | .inlineEditTrigger => inlineEditTriggerCallback br) n v) :
    (h.settle br net w).1.document = w.document
    ∧ (h.settle br net w).1.replacements = w.replacements
    ∧ (h.issued.isSome = true →
        (h.settle br net w).1.console = w.console ++ [msg ++ " " ++ err])
    ∧ (h.issued.isSome = false → (h.settle br net w).1.console = w.console)
    ∧ (h.settle br net w).2 = Settled.fulfilled () := by
  cases hi : h.issued with
  | none => simp [Handled.settle, hi]
  | some rk =>
    obtain ⟨req, k⟩ := rk
    have := hl req k hi
    rcases hnet with hn | hn <;> subst hn <;>
      simp [Handled.settle, hi, this, runChain, World.error, World.replacements]

/-- C7: for each of the three handlers, if the `fetch` promise rejects, or the
`text()` promise of the response rejects, then once the chain has run the live
document is the one from before (and no `replaceWith` call was made), the
error has been written with `console.error` under the handler's msg when a
request had been issued, and the promise that ends the chain is fulfilled: no
rejection is left unhandled.  The promise that ends the chain is fulfilled for
every outcome of the network call. -/
theorem handlers_network_failure (br : Browser) (csrftoken : Option String)
    (document : Node) (e : Event) (err : String) (net : NetworkOutcome) (w : World)
    (hnet : net = Settled.rejected err ∨ net = Settled.fulfilled (Settled.rejected err)) :
    (((onLikeSubmit br csrftoken document e).settle br net w).1.document = w.document
      ∧ ((onLikeSubmit br csrftoken document e).settle br net w).1.replacements
          = w.replacements
      ∧ ((onLikeSubmit br csrftoken document e).issued.isSome = true →
          ((onLikeSubmit br csrftoken document e).settle br net w).1.console
            = w.console ++ ["Like toggle failed:" ++ " " ++ err])
      ∧ ((onLikeSubmit br csrftoken document e).settle br net w).2 = Settled.fulfilled ())
    ∧ (((onInlineEditSubmit br csrftoken document e).settle br net w).1.document = w.document
      ∧ ((onInlineEditSubmit br csrftoken document e).settle br net w).1.replacements
          = w.replacements
      ∧ ((onInlineEditSubmit br csrftoken document e).issued.isSome = true →
          ((onInlineEditSubmit br csrftoken document e).settle br net w).1.console
            = w.console ++ ["Inline edit submit failed:" ++ " " ++ err])
      ∧ ((onInlineEditSubmit br csrftoken document e).settle br net w).2
          = Settled.fulfilled ())
    ∧ (((onInlineEditTrigger br csrftoken document e).settle br net w).1.document = w.document
      ∧ ((onInlineEditTrigger br csrftoken document e).settle br net w).1.replacements
          = w.replacements
      ∧ ((onInlineEditTrigger br csrftoken document e).issued.isSome = true →
          ((onInlineEditTrigger br csrftoken document e).settle br net w).1.console
            = w.console ++ ["Load inline edit form failed:" ++ " " ++ err])
      ∧ ((onInlineEditTrigger br csrftoken document e).settle br net w).2
          = Settled.fulfilled ())
    ∧ (∀ (any : NetworkOutcome) (v : World),
        ((onLikeSubmit br csrftoken document e).settle br any v).2 = Settled.fulfilled ()
        ∧ ((onInlineEditSubmit br csrftoken document e).settle br any v).2
            = Settled.fulfilled ()
        ∧ ((onInlineEditTrigger br csrftoken document e).settle br any v).2
            = Settled.fulfilled ()) := by
  refine ⟨?_, ?_, ?_, ?_⟩
  · have := settle_failure br (onLikeSubmit br csrftoken document e) err net hnet w
      "Like toggle failed:" (by
        intro req k hk n v
        unfold onLikeSubmit at hk
        cases hc : closest document (br.selector "form.js-like-form") e.target with
        | none => simp [hc, Handled.nothing] at hk
        | some form =>
          simp only [hc, Option.some.injEq, Prod.mk.injEq] at hk
          rw [← hk.2]; rfl)
    exact ⟨this.1, this.2.1, this.2.2.1, this.2.2.2.2⟩
  · have := settle_failure br (onInlineEditSubmit br csrftoken document e) err net hnet w
      "Inline edit submit failed:" (by
        intro req k hk n v
        unfold onInlineEditSubmit at hk
        cases hc : closest document (br.selector "form.js-inline-edit-form") e.target with
        | none => simp [hc, Handled.nothing] at hk
        | some form =>
          simp only [hc, Option.some.injEq, Prod.mk.injEq] at hk
          rw [← hk.2]; rfl)
    exact ⟨this.1, this.2.1, this.2.2.1, this.2.2.2.2⟩
  · have := settle_failure br (onInlineEditTrigger br csrftoken document e) err net hnet w
      "Load inline edit form failed:" (by
        intro req k hk n v
        unfold onInlineEditTrigger at hk
        cases hc : closest document (br.selector ".js-inline-edit-trigger") e.target with
        | none => simp [hc, Handled.nothing] at hk
        | some btn =>
          simp only [hc] at hk
          cases hu : attributeAt document btn "data-edit-url" with
          | none => simp [hu] at hk
          | some url =>
            simp only [hu] at hk
            by_cases he : url = ""
            · simp [he] at hk
            · simp only [he, if_false, Option.some.injEq, Prod.mk.injEq] at hk
              rw [← hk.2]; rfl)
    exact ⟨this.1, this.2.1, this.2.2.1, this.2.2.2.2⟩
  · intro any v
    exact ⟨settle_settles _ _ _ _, settle_settles _ _ _ _, settle_settles _ _ _ _⟩

/-- C7 on the post page: the like form is submitted and `fetch` rejects with
`TypeError: Failed to fetch`; the document is unchanged and the console holds
the one line of the like handler. -/
theorem handlers_network_failure_witness :
    ((onLikeSubmit (Browser.answering likedResponse) none postPage likeSubmission).settle
        (Browser.answering likedResponse) (Settled.rejected "TypeError: Failed to fetch")
        (World.initial postPage)).1.document = postPage
    ∧ ((onLikeSubmit (Browser.answering likedResponse) none postPage likeSubmission).settle
        (Browser.answering likedResponse) (Settled.rejected "TypeError: Failed to fetch")
        (World.initial postPage)).1.console
      = ["Like toggle failed: TypeError: Failed to fetch"] :=
  ⟨(handlers_network_failure (Browser.answering likedResponse) none postPage likeSubmission
      "TypeError: Failed to fetch" (Settled.rejected "TypeError: Failed to fetch")
      (World.initial postPage) (Or.inl rfl)).1.1,
   ((handlers_network_failure (Browser.answering likedResponse) none postPage likeSubmission
      "TypeError: Failed to fetch" (Settled.rejected "TypeError: Failed to fetch")
      (World.initial postPage) (Or.inl rfl)).1.2.2.1 (by decide)).trans (by decide)⟩

/-- C10: the listeners look at the class list of the event target itself.  The
`submit` listener calls `onLikeSubmit` exactly when the target carries
`js-like-form` (also when it carries `js-inline-edit-form` as well), calls
`onInlineEditSubmit` exactly when it carries `js-inline-edit-form` and not
`js-like-form`, and the `click` listener calls `onInlineEditTrigger` exactly
when the target carries `js-inline-edit-trigger`; the default action is
prevented only in those cases.  A click whose target does not carry
`js-inline-edit-trigger` calls no handler, issues no request, does not prevent
the default action and leaves the page unchanged, wherever the target is. -/
theorem listeners_dispatch (br : Browser) (csrftoken : Option String) (document : Node)
    (e : Event) :
    ((submitListener br csrftoken document e).handler = some HandlerName.onLikeSubmit
        ↔ targetHasClass document e "js-like-form" = true)
    ∧ ((submitListener br csrftoken document e).handler = some HandlerName.onInlineEditSubmit
        ↔ targetHasClass document e "js-like-form" = false
          ∧ targetHasClass document e "js-inline-edit-form" = true)
    ∧ (submitListener br csrftoken document e).handler ≠ some HandlerName.onInlineEditTrigger
    ∧ ((clickListener br csrftoken document e).handler = some HandlerName.onInlineEditTrigger
        ↔ targetHasClass document e "js-inline-edit-trigger" = true)
    ∧ ((clickListener br csrftoken document e).handler = none
        ↔ targetHasClass document e "js-inline-edit-trigger" = false)
    ∧ ((submitListener br csrftoken document e).handled.defaultPrevented = true →
        targetHasClass document e "js-like-form" = true
          ∨ targetHasClass document e "js-inline-edit-form" = true)
    ∧ ((clickListener br csrftoken document e).handled.defaultPrevented = true →
        targetHasClass document e "js-inline-edit-trigger" = true)
    ∧ (targetHasClass document e "js-inline-edit-trigger" = false →
        (clickListener br csrftoken document e).handler = none
        ∧ (clickListener br csrftoken document e).handled.issued = none
        ∧ (clickListener br csrftoken document e).handled.defaultPrevented = false
        ∧ ∀ (net : NetworkOutcome) (w : World),
            ((clickListener br csrftoken document e).handled.settle br net w).1 = w)
    ∧ (targetHasClass document e "js-like-form" = true →
        targetHasClass document e "js-inline-edit-form" = true →
        (submitListener br csrftoken document e)
          = { handler := some HandlerName.onLikeSubmit,
              handled := onLikeSubmit br csrftoken document e }) := by
  unfold submitListener clickListener
  cases h1 : targetHasClass document e "js-like-form" <;>
  cases h2 : targetHasClass document e "js-inline-edit-form" <;>
  cases h3 : targetHasClass document e "js-inline-edit-trigger" <;>
  simp [Handled.nothing, Handled.settle]

/-- C10 on the post page: a click on the msg inside the trigger button
(position `[1, 1, 1, 0]`) reaches no handler, although `onInlineEditTrigger`
called with that event would find the button through `closest` and issue the
request; a click on the button itself is dispatched. -/
theorem listeners_dispatch_witness :
    targetHasClass postPage labelClick "js-inline-edit-trigger" = false
    ∧ closest postPage inlineEditTriggerSelector labelClick.target = some [1, 1, 1]
    ∧ (onInlineEditTrigger (Browser.answering editedResponse) none postPage
        labelClick).issued.isSome = true
    ∧ (clickListener (Browser.answering editedResponse) none postPage
        labelClick).handled.issued = none
    ∧ (clickListener (Browser.answering editedResponse) none postPage
        labelClick).handled.defaultPrevented = false
    ∧ (clickListener (Browser.answering editedResponse) none postPage triggerClick).handler
        = some HandlerName.onInlineEditTrigger :=
  ⟨by decide, by decide, by decide,
   ((listeners_dispatch (Browser.answering editedResponse) none postPage
      labelClick).2.2.2.2.2.2.2.1 (by decide)).2.1,
   ((listeners_dispatch (Browser.answering editedResponse) none postPage
      labelClick).2.2.2.2.2.2.2.1 (by decide)).2.2.1,
   (listeners_dispatch (Browser.answering editedResponse) none postPage
      triggerClick).2.2.2.1.mpr (by decide)⟩

end CabrelBlog
